import Mathlib

/-!
Verification development for the ORION requirement-decomposition workflow.

The repository contains two implementations of the workflow engine:
* `agents.py` (class `JIRAAgentSystem` over dataclass `SystemState`), embedded
  below in namespace `Orion.Agents`;
* `main.py` (a LangGraph node pipeline over TypedDict `WorkflowState`),
  embedded below in namespace `Orion.Main`.

Modelling conventions:
* Every call to the language model (OpenAI completion followed by JSON
  parsing) is represented by an oracle argument of type `Option <parsed shape>`:
  `none` stands for "the call raised or the response failed to parse", and
  `some d` for a successfully parsed response `d`.  Prompt strings only feed
  the language model, so they are absorbed into the oracle.
* Python scores are floats in the source; they are modelled as rationals.
* `datetime` bookkeeping fields (`created_at`, `updated_at`) carry wall-clock
  time only; they are omitted from the state records.
* Python dicts (`responses`, `validation_results`, `metadata`) are modelled as
  association lists with dict-assignment update (`upsert`): replace the first
  binding in place, otherwise append, which matches insertion-order semantics.
* Python exceptions that mutate the state in place before propagating are
  modelled by `Except SystemState SystemState`: the `error` branch carries the
  state as mutated at the moment the exception escaped.
-/

namespace Orion

/-- Python's `str.strip()`, modelled over the character list (so that it is
evaluable by the kernel; `String.trim` is not). -/
def pyStrip (s : String) : String :=
  ⟨((s.data.dropWhile Char.isWhitespace).reverse.dropWhile Char.isWhitespace).reverse⟩

/-- Python's `str.lower()`, modelled over the character list. -/
def pyLower (s : String) : String :=
  ⟨s.data.map Char.toLower⟩

/-- Dict-style assignment on an association list: replace the first binding of
the key in place, otherwise append the new binding at the end. -/
def upsert {α : Type} (k : String) (v : α) : List (String × α) → List (String × α)
  | [] => [(k, v)]
  | (k', v') :: rest => if k' = k then (k, v) :: rest else (k', v') :: upsert k v rest

/-- The arithmetic mean of a list of rationals (0 on the empty list, since
division by zero is zero in `ℚ`). -/
def arith_mean (l : List ℚ) : ℚ := l.sum / l.length

namespace Agents

/-- `AnalysisPhase` enum of agents.py. -/
inductive AnalysisPhase
  | INPUT | ANALYZING | QUESTIONING | VALIDATING
  | GENERATING_EPICS | GENERATING_STORIES | FEEDBACK_PROCESSING
  | COMPLETE | ERROR
deriving DecidableEq, Repr

/-- `GenerationType` enum of agents.py. -/
inductive GenerationType
  | EPICS_ONLY | STORIES_ONLY | BOTH
deriving DecidableEq, Repr

/-- `Question` dataclass of agents.py (without the `created_at` timestamp). -/
structure Question where
  id : String
  question : String
  context : String
  reasoning : String
  priority : Int
  required : Bool
  validation_criteria : List String
  answered : Bool := false
  answer : String := ""
  validation_status : String := "pending"
  validation_score : ℚ := 0
  skipped : Bool := false
deriving DecidableEq, Repr

/-- `ValidationResult` dataclass of agents.py (without `validated_at`). -/
structure ValidationResult where
  is_valid : Bool
  overall_score : ℚ
  criteria_scores : List (String × ℚ)
  issues : List String
  suggestions : List String
  confidence : ℚ
deriving DecidableEq, Repr

/-- `Epic` dataclass of agents.py (without `created_at`). -/
structure Epic where
  id : String
  title : String
  description : String
  business_value : String
  acceptance_criteria : List String
  priority : String
  estimated_story_points : Int
  dependencies : List String
  assumptions : List String
  risks : List String
deriving DecidableEq, Repr

/-- `UserStory` dataclass of agents.py (without `created_at`). -/
structure UserStory where
  id : String
  epic_id : Option String
  title : String
  description : String
  user_persona : String
  acceptance_criteria : List String
  definition_of_done : List String
  story_points : Int
  priority : String
  labels : List String
  dependencies : List String
deriving DecidableEq, Repr

/-- `FeedbackResult` dataclass of agents.py (without `timestamp`). -/
structure FeedbackResult where
  is_valid : Bool
  processed_feedback : String
  reasoning : String
  confidence : ℚ
deriving DecidableEq, Repr

/-- `SystemState` dataclass of agents.py (without the two timestamps).
`slicing_type` and `persona` can be set to `analysis_result.get(...)`, which
yields `None` on a missing key, so both are `Option String`.  `metadata` is a
string-keyed dict whose values are modelled as strings. -/
structure SystemState where
  session_id : String
  hlr : String
  phase : AnalysisPhase
  generation_type : Option GenerationType
  slicing_type : Option String
  persona : Option String
  questions : List Question
  responses : List (String × String)
  validation_results : List (String × ValidationResult)
  epics : List Epic
  user_stories : List UserStory
  feedback_history : List String
  feedback_count : Nat
  overall_confidence : ℚ
  errors : List String
  metadata : List (String × String)
deriving DecidableEq, Repr

/-- Collapse an exceptional outcome to the state it carries (on the `error`
side this is the state as mutated when the Python exception escaped). -/
def estate : Except SystemState SystemState → SystemState
  | .ok s => s
  | .error s => s

/-- Parsed shape of a successful `analyze_requirement` model response
(`result.get('slicing_type')`, `result.get('persona')`,
`result.get('metadata', {})`). -/
structure AnalysisData where
  slicing_type : Option String
  persona : Option String
  metadata : List (String × String)
deriving DecidableEq, Repr

/-- `dict.update`: fold the new bindings into the dict one by one. -/
def updateMeta (m upd : List (String × String)) : List (String × String) :=
  upd.foldl (fun acc p => upsert p.1 p.2 acc) m

/-- `RequirementAnalysisAgent.analyze_requirement` (agents.py).  On a parsed
response the state gains the slicing type, persona and metadata; on a raised
exception the state keeps `phase = ERROR` plus an appended error and the
exception propagates. -/
def analyze_requirement (d : Option AnalysisData) (s : SystemState) :
    Except SystemState SystemState :=
  match d with
  | some a => .ok { s with
      phase := .ANALYZING
      slicing_type := a.slicing_type
      persona := a.persona
      metadata := updateMeta s.metadata a.metadata }
  | none => .error { s with
      phase := .ERROR
      errors := s.errors ++ ["Analysis error"] }

/-- Parsed shape of one entry of the `questions` array of a successful
`generate_questions` model response. -/
structure QData where
  question : String
  context : String
  reasoning : String
  priority : Int
  required : Bool
  validation_criteria : List String
deriving DecidableEq, Repr

/-- The `Question` record built for the `i`-th parsed question entry inside
`RequirementAnalysisAgent.generate_questions`. -/
def buildQuestion (sid : String) (i : Nat) (q : QData) : Question :=
  { id := "q_" ++ sid ++ "_" ++ toString (i + 1),
    question := q.question, context := q.context, reasoning := q.reasoning,
    priority := q.priority, required := q.required,
    validation_criteria := q.validation_criteria }

/-- `RequirementAnalysisAgent.generate_questions` (agents.py).  `config_ok`
models the `self.config['slicing_types'][state.slicing_type]` lookup, which is
performed before the `try` block: on a missing key the exception escapes with
only the phase already changed.  A model/parse failure inside the `try` block
appends an error, sets `phase = ERROR` and propagates. -/
def generate_questions (config_ok : Bool) (d : Option (List QData))
    (s : SystemState) : Except SystemState SystemState :=
  if config_ok = false then .error { s with phase := .QUESTIONING }
  else match d with
  | some qs => .ok { s with
      phase := .QUESTIONING
      questions := qs.enum.map (fun p => buildQuestion s.session_id p.1 p.2) }
  | none => .error { s with
      phase := .ERROR
      errors := s.errors ++ ["Question generation error"] }

/-- Parsed shape of a successful `validate_response` model response. -/
structure VData where
  is_valid : Bool
  overall_score : ℚ
  criteria_scores : List (String × ℚ)
  issues : List String
  suggestions : List String
  confidence : ℚ
deriving DecidableEq, Repr

/-- The `ValidationResult` built from a parsed validation response. -/
def mkVR (v : VData) : ValidationResult :=
  { is_valid := v.is_valid, overall_score := v.overall_score,
    criteria_scores := v.criteria_scores, issues := v.issues,
    suggestions := v.suggestions, confidence := v.confidence }

/-- Update the first question whose id matches (Python's
`next(q for q in state.questions if q.id == question_id)` mutates exactly that
object). -/
def updQuestion (qid : String) (f : Question → Question) :
    List Question → List Question
  | [] => []
  | q :: qs => if q.id = qid then f q :: qs else q :: updQuestion qid f qs

/-- `RequirementAnalysisAgent.validate_response` (agents.py).  A missing
question id raises `ValueError` before any mutation; a model/parse failure
appends an error (after the phase change) and propagates; a parsed verdict
updates the question in place and stores the result and response. -/
def validate_response (d : Option VData) (s : SystemState)
    (qid user_response : String) : Except SystemState SystemState :=
  match s.questions.find? (fun q => q.id == qid) with
  | none => .error s
  | some _ =>
    match d with
    | none => .error { s with
        phase := .VALIDATING
        errors := s.errors ++ ["Validation error for " ++ qid] }
    | some v => .ok { s with
        phase := .VALIDATING
        questions := updQuestion qid (fun q =>
          { q with
            answered := true
            answer := user_response
            validation_status := if v.is_valid then "valid" else "invalid"
            validation_score := v.overall_score }) s.questions
        validation_results := upsert qid (mkVR v) s.validation_results
        responses := upsert qid user_response s.responses }

/-- Parsed shape of one entry of the `epics` array of a generation response. -/
structure EpicInfo where
  title : String
  description : String
  business_value : String
  acceptance_criteria : List String
  priority : String
  estimated_story_points : Int
  dependencies : List String
  assumptions : List String
  risks : List String
deriving DecidableEq, Repr

/-- The `Epic` record built for the `i`-th parsed epic entry.  This
construction appears inline in `EpicGeneratorAgent.generate_epics` and again
as `FeedbackAgent._rebuild_epics`; both build exactly these records. -/
def buildEpic (sid : String) (i : Nat) (e : EpicInfo) : Epic :=
  { id := "epic_" ++ sid ++ "_" ++ toString (i + 1),
    title := e.title, description := e.description,
    business_value := e.business_value,
    acceptance_criteria := e.acceptance_criteria, priority := e.priority,
    estimated_story_points := e.estimated_story_points,
    dependencies := e.dependencies, assumptions := e.assumptions,
    risks := e.risks }

/-- Epic list built from a parsed epic array (`_rebuild_epics`). -/
def rebuild_epics (es : List EpicInfo) (sid : String) : List Epic :=
  es.enum.map (fun p => buildEpic sid p.1 p.2)

/-- Parsed shape of a successful epic-generation response.  The `epics` key
may be absent (`epic_data.get('epics', [])`), hence the `Option`.
`epic_relationships` is stored into the metadata dict as an opaque value. -/
structure EpicParse where
  epics : Option (List EpicInfo)
  epic_relationships : String
deriving DecidableEq, Repr

/-- `EpicGeneratorAgent.generate_epics` (agents.py): on success the epics
list is replaced wholesale by the records built from the parsed array
(empty when the key is absent); on failure the phase becomes `ERROR`, an
error is appended, and the exception propagates. -/
def generate_epics (d : Option EpicParse) (s : SystemState) :
    Except SystemState SystemState :=
  match d with
  | some p => .ok { s with
      phase := .GENERATING_EPICS
      epics := rebuild_epics (p.epics.getD []) s.session_id
      metadata := upsert "epic_relationships" p.epic_relationships s.metadata }
  | none => .error { s with
      phase := .ERROR
      errors := s.errors ++ ["Epic generation error"] }

/-- Parsed shape of one entry of the `user_stories` array of a generation
response. -/
structure StoryInfo where
  epic_id : Option String
  title : String
  description : String
  user_persona : String
  acceptance_criteria : List String
  definition_of_done : List String
  story_points : Int
  priority : String
  labels : List String
  dependencies : List String
deriving DecidableEq, Repr

/-- The `UserStory` record built for the `i`-th parsed story entry
(inline in `UserStoryGeneratorAgent.generate_user_stories` and again as
`FeedbackAgent._rebuild_user_stories`). -/
def buildStory (sid : String) (i : Nat) (st : StoryInfo) : UserStory :=
  { id := "story_" ++ sid ++ "_" ++ toString (i + 1),
    epic_id := st.epic_id, title := st.title, description := st.description,
    user_persona := st.user_persona,
    acceptance_criteria := st.acceptance_criteria,
    definition_of_done := st.definition_of_done,
    story_points := st.story_points, priority := st.priority,
    labels := st.labels, dependencies := st.dependencies }

/-- Story list built from a parsed story array (`_rebuild_user_stories`). -/
def rebuild_user_stories (ss : List StoryInfo) (sid : String) : List UserStory :=
  ss.enum.map (fun p => buildStory sid p.1 p.2)

/-- Parsed shape of a successful story-generation response
(`story_data.get('user_stories', [])` tolerates a missing key). -/
structure StoryParse where
  user_stories : Option (List StoryInfo)
  story_mapping : String
deriving DecidableEq, Repr

/-- `UserStoryGeneratorAgent.generate_user_stories` (agents.py). -/
def generate_user_stories (d : Option StoryParse) (s : SystemState) :
    Except SystemState SystemState :=
  match d with
  | some p => .ok { s with
      phase := .GENERATING_STORIES
      user_stories := rebuild_user_stories (p.user_stories.getD []) s.session_id
      metadata := upsert "story_mapping" p.story_mapping s.metadata }
  | none => .error { s with
      phase := .ERROR
      errors := s.errors ++ ["User story generation error"] }

/-- `JIRAAgentSystem._generate_node` / `generate_content`: epics first when
the generation type asks for them, then stories. -/
def generate_content (de : Option EpicParse) (ds : Option StoryParse)
    (s : SystemState) : Except SystemState SystemState :=
  match (if s.generation_type = some .EPICS_ONLY ∨ s.generation_type = some .BOTH
         then generate_epics de s else .ok s) with
  | .error s' => .error s'
  | .ok s' =>
    if s'.generation_type = some .STORIES_ONLY ∨ s'.generation_type = some .BOTH
    then generate_user_stories ds s' else .ok s'

/-- Mark a question skipped inside `process_qa_session`: skipped questions
are answered with the sentinel answer. -/
def markSkipped (skipped : List String) (q : Question) : Question :=
  if q.id ∈ skipped then
    { q with skipped := true, answered := true, answer := "[SKIPPED]" }
  else q

/-- Overall confidence as computed by `process_qa_session`: the mean
`overall_score` over the currently valid validation results, `0.0` when
there are none. -/
def overall_confidence_calc (vrs : List ValidationResult) : ℚ :=
  match (vrs.filter (fun vr => vr.is_valid)).map (fun vr => vr.overall_score) with
  | [] => 0
  | valid_scores => valid_scores.sum / valid_scores.length

/-- One iteration of the answered-question loop of `process_qa_session`:
questions that are not skipped and have a nonempty answer are validated; a
validation exception is caught and recorded as one more error. -/
def qa_answer_step (vllm : String → Option VData) (skipped : List String)
    (s : SystemState) (p : String × String) : SystemState :=
  if p.1 ∉ skipped ∧ pyStrip p.2 ≠ "" then
    match validate_response (vllm p.1) s p.1 p.2 with
    | .ok s' => s'
    | .error s' => { s' with errors := s'.errors ++ ["Validation error for " ++ p.1] }
  else s

/-- `JIRAAgentSystem.process_qa_session` (agents.py): mark the skipped
questions, validate the answered ones, then recompute the overall
confidence. -/
def process_qa_session (vllm : String → Option VData) (s : SystemState)
    (qa_responses : List (String × String)) (skipped : List String) :
    SystemState :=
  let s1 := { s with questions := s.questions.map (markSkipped skipped) }
  let s2 := qa_responses.foldl (qa_answer_step vllm skipped) s1
  { s2 with overall_confidence :=
      overall_confidence_calc (s2.validation_results.map Prod.snd) }

/-- Parsed shape of a successful `validate_feedback` model response. -/
structure FBData where
  is_valid : Bool
  processed_feedback : String
  reasoning : String
  confidence : ℚ
deriving DecidableEq, Repr

/-- `FeedbackAgent.validate_feedback` (agents.py): the state and feedback
feed only the prompt; a failure raises without mutating the state. -/
def validate_feedback (d : Option FBData) : Except Unit FeedbackResult :=
  match d with
  | some f => .ok { is_valid := f.is_valid
                    processed_feedback := f.processed_feedback
                    reasoning := f.reasoning
                    confidence := f.confidence }
  | none => .error ()

/-- Parsed shape of a successful `apply_feedback` model response: either
content key may be absent (`if 'epics' in updated_data`, dito stories). -/
structure UpdatedData where
  epics : Option (List EpicInfo)
  user_stories : Option (List StoryInfo)
deriving DecidableEq, Repr

/-- `FeedbackAgent.apply_feedback` (agents.py): rebuild each content list
from the parsed response only when the generation type covers it and the
response carries the corresponding key; always append the feedback and
increment the counter on success.  On failure the phase change persists, an
error is appended, and the exception propagates. -/
def apply_feedback (d : Option UpdatedData) (s : SystemState)
    (feedback : String) : Except SystemState SystemState :=
  match d with
  | none => .error { s with
      phase := .FEEDBACK_PROCESSING
      errors := s.errors ++ ["Feedback application error"] }
  | some u =>
    let s1 := { s with phase := .FEEDBACK_PROCESSING }
    let s2 := if s1.generation_type = some .EPICS_ONLY ∨ s1.generation_type = some .BOTH
      then match u.epics with
        | some es => { s1 with epics := rebuild_epics es s1.session_id }
        | none => s1
      else s1
    let s3 := if s2.generation_type = some .STORIES_ONLY ∨ s2.generation_type = some .BOTH
      then match u.user_stories with
        | some ss => { s2 with user_stories := rebuild_user_stories ss s2.session_id }
        | none => s2
      else s2
    .ok { s3 with
          feedback_history := s3.feedback_history ++ [feedback]
          feedback_count := s3.feedback_count + 1 }

/-- `JIRAAgentSystem.process_feedback` (agents.py): refuse at the cap,
validate the feedback, and only then apply it. -/
def process_feedback (v : Option FBData) (a : Option UpdatedData)
    (s : SystemState) (feedback : String) :
    Except SystemState (SystemState × Bool) :=
  if 3 ≤ s.feedback_count then .ok (s, false)
  else match validate_feedback v with
  | .error _ => .error s
  | .ok fr =>
    if fr.is_valid = false then .ok (s, false)
    else match apply_feedback a s feedback with
      | .ok s' => .ok (s', true)
      | .error s' => .error s'

/-- `JIRAAgentSystem.create_session` (agents.py); the uuid-derived session id
is a parameter. -/
def create_session (sid hlr : String) (g : GenerationType) : SystemState :=
  { session_id := sid, hlr := pyStrip hlr, phase := .INPUT,
    generation_type := some g, slicing_type := none, persona := some "",
    questions := [], responses := [], validation_results := [],
    epics := [], user_stories := [], feedback_history := [],
    feedback_count := 0, overall_confidence := 0, errors := [],
    metadata := [] }

end Agents

namespace Agents

/-- Stage of an agents.py session as driven by `main()` (agents.py) and by
the Streamlit driver (pages/chatbot.py): create, analyze, generate
questions, one Q&A pass, generate content, then the feedback loop.  Both
drivers abort the session when an engine call raises. -/
inductive Stage
  | started | analyzed | questioned | qaDone | generated | aborted
deriving DecidableEq, Repr

/-- Session states reachable through the engine's operations, in the order
the drivers invoke them.  Oracle arguments are arbitrary, so every possible
language-model outcome (including failures) is covered. -/
inductive Reach : Stage → SystemState → Prop
  | create (sid hlr : String) (g : GenerationType) :
      Reach .started (create_session sid hlr g)
  | analyze_ok {s s' : SystemState} {d : Option AnalysisData} :
      Reach .started s → analyze_requirement d s = .ok s' → Reach .analyzed s'
  | analyze_err {s s' : SystemState} {d : Option AnalysisData} :
      Reach .started s → analyze_requirement d s = .error s' → Reach .aborted s'
  | question_ok {s s' : SystemState} {cfg : Bool} {d : Option (List QData)} :
      Reach .analyzed s → generate_questions cfg d s = .ok s' → Reach .questioned s'
  | question_err {s s' : SystemState} {cfg : Bool} {d : Option (List QData)} :
      Reach .analyzed s → generate_questions cfg d s = .error s' → Reach .aborted s'
  | qa {s : SystemState} (vllm : String → Option VData)
      (rs : List (String × String)) (sk : List String) :
      Reach .questioned s → Reach .qaDone (process_qa_session vllm s rs sk)
  | gen_ok {s s' : SystemState} {de : Option EpicParse} {ds : Option StoryParse} :
      Reach .qaDone s → generate_content de ds s = .ok s' → Reach .generated s'
  | gen_err {s s' : SystemState} {de : Option EpicParse} {ds : Option StoryParse} :
      Reach .qaDone s → generate_content de ds s = .error s' → Reach .aborted s'
  | feedback_ok {s s' : SystemState} {v : Option FBData} {a : Option UpdatedData}
      {fb : String} {b : Bool} :
      Reach .generated s → process_feedback v a s fb = .ok (s', b) →
      Reach .generated s'
  | feedback_err {s s' : SystemState} {v : Option FBData} {a : Option UpdatedData}
      {fb : String} :
      Reach .generated s → process_feedback v a s fb = .error s' →
      Reach .aborted s'

/-- The skip invariant on a state's questions: a skipped question is counted
as answered with the sentinel answer. -/
def QInv (s : SystemState) : Prop :=
  ∀ q ∈ s.questions, q.skipped = true → q.answered = true ∧ q.answer = "[SKIPPED]"

/-- All questions of a state are unskipped (holds for freshly generated
questions). -/
def AllUnskipped (s : SystemState) : Prop :=
  ∀ q ∈ s.questions, q.skipped = false

end Agents

namespace Main

/-- `AnalysisPhase` enum of main.py. -/
inductive AnalysisPhase
  | INPUT | ANALYZING | QUESTIONING | VALIDATING | GENERATING | COMPLETE | ERROR
deriving DecidableEq, Repr

/-- `GenerationType` enum of main.py. -/
inductive GenerationType
  | EPICS_ONLY | STORIES_ONLY | BOTH
deriving DecidableEq, Repr

/-- `Question` dataclass of main.py. -/
structure Question where
  id : String
  question : String
  context : String
  reasoning : String
  priority : Int
  required : Bool
  answered : Bool := false
  answer : String := ""
  skipped : Bool := false
deriving DecidableEq, Repr

/-- `ValidationResult` dataclass of main.py.  It doubles as the parsed shape
of a validation model response, since `validate_response` copies the parsed
fields one-to-one. -/
structure ValidationResult where
  is_valid : Bool
  overall_score : ℚ
  issues : List String
  suggestions : List String
  confidence : ℚ
deriving DecidableEq, Repr

/-- The `requirement_analysis` dict of main.py, with the keys the code
accesses; each is `Option` because the parsed response may omit it. -/
structure Analysis where
  slicing_type : Option String
  recommended_persona : Option String
  domain : Option String
  complexity : Option String
  user_types : List String
  main_features : List String
  confidence : Option ℚ
deriving DecidableEq, Repr

/-- An epic dict as produced by main.py's epic generation (main.py keeps the
parsed dicts raw; these are the schema fields). -/
structure EpicD where
  title : String
  description : String
  business_value : String
  acceptance_criteria : List String
  priority : String
  estimated_story_points : Int
  dependencies : List String
  assumptions : List String
  risks : List String
deriving DecidableEq, Repr

/-- A user-story dict as produced by main.py's story generation. -/
structure StoryD where
  title : String
  description : String
  user_persona : String
  acceptance_criteria : List String
  definition_of_done : List String
  story_points : Int
  priority : String
  labels : List String
  dependencies : List String
  epic_reference : Option String
deriving DecidableEq, Repr

/-- `WorkflowState` TypedDict of main.py. -/
structure WorkflowState where
  session_id : String
  workflow_type : String
  hlr : String
  selected_project : Option String
  selected_issues : List String
  issues_detail : String
  persona : String
  slicing_type : String
  generation_type : GenerationType
  phase : AnalysisPhase
  questions : List Question
  responses : List (String × String)
  validation_results : List (String × ValidationResult)
  requirement_analysis : Analysis
  epics : List EpicD
  user_stories : List StoryD
  feedback_history : List String
  feedback_count : Nat
  overall_confidence : ℚ
  errors : List String
  current_step : String
deriving DecidableEq, Repr

/-- `RequirementAnalysisAgent.analyze_requirement` (main.py): a raised or
unparseable model call degrades to the fixed default analysis dict. -/
def analyze_requirement (llm : Option Analysis) : Analysis :=
  match llm with
  | some a => a
  | none =>
    { slicing_type := some "functional"
      recommended_persona := some "Business Analyst"
      domain := some "general"
      complexity := some "Medium"
      user_types := ["user"]
      main_features := []
      confidence := some (1 / 2) }

/-- Parsed shape of one entry of a question-generation response in main.py
(only `question` is mandatory; the rest use `.get` defaults). -/
structure QData where
  question : String
  context : String
  reasoning : String
  priority : Int
  required : Bool
deriving DecidableEq, Repr

/-- `RequirementAnalysisAgent.generate_questions` (main.py): a failure
returns the empty list; otherwise one `Question` per parsed entry, with a
uuid-derived id supplied by the `fresh` oracle. -/
def generate_questions (fresh : Nat → String) (llm : Option (List QData)) :
    List Question :=
  match llm with
  | some qs => qs.enum.map (fun p =>
      { id := fresh p.1, question := p.2.question, context := p.2.context,
        reasoning := p.2.reasoning, priority := p.2.priority,
        required := p.2.required })
  | none => []

/-- `RequirementAnalysisAgent.validate_response` (main.py): a failure
degrades to the fixed lenient default verdict. -/
def validate_response (llm : Option ValidationResult) : ValidationResult :=
  match llm with
  | some v => v
  | none =>
    { is_valid := true, overall_score := 7 / 10, issues := [],
      suggestions := [], confidence := 1 / 2 }

/-- Parsed shape of an epic-generation response in main.py
(`epic_data.get('epics', [])` tolerates a missing key). -/
structure EpicResponse where
  epics : Option (List EpicD)
deriving DecidableEq, Repr

/-- `EpicGeneratorAgent.generate_epics` (main.py): empty list on failure,
otherwise the parsed array (empty when the key is absent). -/
def generate_epics (llm : Option EpicResponse) : List EpicD :=
  match llm with
  | some r => r.epics.getD []
  | none => []

/-- Parsed shape of a story-generation response in main.py. -/
structure StoryResponse where
  user_stories : Option (List StoryD)
deriving DecidableEq, Repr

/-- `UserStoryGeneratorAgent.generate_user_stories` (main.py). -/
def generate_user_stories (llm : Option StoryResponse) : List StoryD :=
  match llm with
  | some r => r.user_stories.getD []
  | none => []

/-- The `context_parts` list of `EpicGeneratorAgent._build_qa_context`
(main.py): one bullet per nonempty, non-sentinel response. -/
def qa_context_parts (qa_responses : List (String × String)) : List String :=
  qa_responses.filterMap (fun p =>
    if p.2 ≠ "" ∧ p.2 ≠ "[SKIPPED]" then some ("- " ++ p.2) else none)

/-- `EpicGeneratorAgent._build_qa_context` (main.py); the story generator's
`_build_qa_context` is textually identical. -/
def build_qa_context (qa_responses : List (String × String)) : String :=
  if qa_responses = [] then "No Q&A responses provided"
  else match qa_context_parts qa_responses with
  | [] => "No valid responses provided"
  | parts => String.intercalate "\n" parts

/-- The data consumed by one iteration of the interactive Q&A loop of
`requirement_analysis_node`: the typed answer, the validation-call outcome,
the retry decision and the improved answer. -/
structure QAInput where
  resp : String
  vllm : Option ValidationResult
  retry : String
  newResp : String
deriving Repr

/-- The loop-carried part of the Q&A session of `requirement_analysis_node`:
the phase field, the local `qa_responses` dict and the state's
`validation_results` dict. -/
structure QALoopState where
  phase : AnalysisPhase
  qa_responses : List (String × String)
  validation_results : List (String × ValidationResult)
deriving DecidableEq, Repr

/-- One iteration of the Q&A loop of `requirement_analysis_node` (main.py):
`skip` marks the question answered with the sentinel; a nonempty answer is
validated, stored, and — when the verdict is invalid with issues and the
user retries with a nonempty improved answer — the improved answer replaces
the stored one without re-validation; an empty answer leaves the question
untouched. -/
def process_question (inp : QAInput) (q : Question) (acc : QALoopState) :
    Question × QALoopState :=
  let response := pyStrip inp.resp
  if pyLower response = "skip" then
    ({ q with skipped := true, answered := true, answer := "[SKIPPED]" }, acc)
  else if response ≠ "" then
    let vr := validate_response inp.vllm
    let q1 : Question := { q with answered := true, answer := response }
    let acc1 : QALoopState :=
      { phase := .VALIDATING
        qa_responses := upsert q.id response acc.qa_responses
        validation_results := upsert q.id vr acc.validation_results }
    if vr.is_valid = false ∧ vr.issues ≠ [] then
      if pyLower (pyStrip inp.retry) = "y" then
        let nr := pyStrip inp.newResp
        if nr ≠ "" then
          ({ q1 with answer := nr },
           { acc1 with qa_responses := upsert q.id nr acc1.qa_responses })
        else (q1, acc1)
      else (q1, acc1)
    else (q1, acc1)
  else (q, acc)

/-- The full Q&A loop over the question list, feeding one `QAInput` per
question index. -/
def process_questions (inputs : Nat → QAInput) :
    Nat → List Question → QALoopState → List Question × QALoopState
  | _, [], acc => ([], acc)
  | i, q :: qs, acc =>
    let r := process_question (inputs i) q acc
    let rest := process_questions inputs (i + 1) qs r.2
    (r.1 :: rest.1, rest.2)

/-- Overall confidence as recomputed at the end of
`requirement_analysis_node`: the mean `overall_score` over the valid
validation results, `0.0` when there are none. -/
def overall_confidence_calc (vrs : List ValidationResult) : ℚ :=
  match (vrs.filter (fun vr => vr.is_valid)).map (fun vr => vr.overall_score) with
  | [] => 0
  | valid_scores => valid_scores.sum / valid_scores.length

/-- The Q&A segment of `requirement_analysis_node` (main.py): run the
interactive loop over the state's questions, replace `responses` with the
local `qa_responses` dict, keep the accumulated `validation_results`, and
recompute the overall confidence. -/
def requirement_analysis_qa (inputs : Nat → QAInput) (st : WorkflowState) :
    WorkflowState :=
  let r := process_questions inputs 0 st.questions
    { phase := st.phase, qa_responses := [],
      validation_results := st.validation_results }
  { st with
      questions := r.1
      phase := r.2.phase
      responses := r.2.qa_responses
      validation_results := r.2.validation_results
      overall_confidence :=
        overall_confidence_calc (r.2.validation_results.map Prod.snd) }

/-- A JIRA issue record as consumed by the grounding-context assembly. -/
structure JIRAIssue where
  key : String
  summary : String
  description : String
  issue_type : String
  status : String
  project_key : String
deriving DecidableEq, Repr

/-- The `jira_guidance` assembly at the top of `requirement_analysis_node`
(main.py): grounding context is produced only on the existing-project path
with a selected project and nonempty selected issues; the tracker and the
guidance generator are oracles.  `if selected_project:` is Python string
truthiness, false for both `None` and the empty string. -/
def jira_guidance_of (tracker_projects : List String)
    (issues_of : String → List JIRAIssue)
    (guidance_of : List JIRAIssue → String → String)
    (st : WorkflowState) : String :=
  if st.workflow_type = "existing" ∧ st.selected_issues ≠ [] then
    if tracker_projects ≠ [] then
      match st.selected_project with
      | some p => if p ≠ "" then guidance_of (issues_of p) st.hlr else ""
      | none => ""
    else ""
  else ""

/-- `should_use_jira` routing function (main.py). -/
def should_use_jira (st : WorkflowState) : String :=
  if st.workflow_type = "existing" then "jira_integration" else "new_requirement"

/-- `generation_node` (main.py): generate epics and/or stories according to
the generation type, replacing each list wholesale with the call's output. -/
def generation_node (epicLlm : Option EpicResponse)
    (storyLlm : Option StoryResponse) (s : WorkflowState) : WorkflowState :=
  let s1 := { s with current_step := "generation", phase := AnalysisPhase.GENERATING }
  let s2 := if s1.generation_type = .EPICS_ONLY ∨ s1.generation_type = .BOTH
    then { s1 with epics := generate_epics epicLlm } else s1
  if s2.generation_type = .STORIES_ONLY ∨ s2.generation_type = .BOTH
  then { s2 with user_stories := generate_user_stories storyLlm } else s2

/-- The user-visible data of one iteration of the feedback loop of
`feedback_node` (main.py): the satisfaction answer, the feedback text, and
the two regeneration-call outcomes. -/
structure FBInput where
  satisfied : String
  feedback : String
  epicLlm : Option EpicResponse
  storyLlm : Option StoryResponse
deriving Repr

/-- One iteration of the body of the feedback `while` loop of
`feedback_node` (main.py).  The returned flag is `true` when the iteration
applied the feedback (so the loop continues) and `false` on a `break`. -/
def feedback_step (inp : FBInput) (s : WorkflowState) : WorkflowState × Bool :=
  if pyLower (pyStrip inp.satisfied) = "yes" ∨ pyLower (pyStrip inp.satisfied) = "y" then
    (s, false)
  else
    let fb := pyStrip inp.feedback
    if fb = "" then (s, false)
    else
      let s1 := { s with
        feedback_history := s.feedback_history ++ [fb]
        feedback_count := s.feedback_count + 1 }
      let s2 := if s1.generation_type = .EPICS_ONLY ∨ s1.generation_type = .BOTH
        then { s1 with epics := generate_epics inp.epicLlm } else s1
      let s3 := if s2.generation_type = .STORIES_ONLY ∨ s2.generation_type = .BOTH
        then { s2 with user_stories := generate_user_stories inp.storyLlm } else s2
      (s3, true)

/-- The feedback `while` loop of `feedback_node` (main.py), driven by the
stream of user inputs (the loop exits when the cap is reached, on a break,
or when the input stream ends). -/
def feedback_loop : List FBInput → WorkflowState → WorkflowState
  | [], s => s
  | inp :: rest, s =>
    if s.feedback_count < 3 then
      match feedback_step inp s with
      | (s', true) => feedback_loop rest s'
      | (s', false) => s'
    else s

/-- `final_validation_node` (main.py): always reach phase `COMPLETE`; when
both content lists are empty, record the error string. -/
def final_validation_node (s : WorkflowState) : WorkflowState :=
  let s1 := { s with current_step := "final_validation", phase := AnalysisPhase.COMPLETE }
  if s1.epics = [] ∧ s1.user_stories = [] then
    { s1 with errors := s1.errors ++ ["No content generated"] }
  else s1

end Main

namespace Agents

namespace EpicGeneratorAgent

/-- The `context_parts` list of `EpicGeneratorAgent._build_qa_context`
(agents.py): answered-and-not-skipped questions contribute a Q/A/score
entry, and skipped questions contribute a Q/A entry whose answer is the
sentinel. -/
def qa_context_parts (qs : List Question) : List String :=
  qs.filterMap (fun q =>
    if q.answered = true ∧ q.skipped = false then
      some ("Q: " ++ q.question ++ "\nA: " ++ q.answer
            ++ "\nValidation Score: " ++ toString q.validation_score)
    else if q.skipped = true then
      some ("Q: " ++ q.question ++ "\nA: [SKIPPED]")
    else none)

/-- `EpicGeneratorAgent._build_qa_context` (agents.py). -/
def build_qa_context (qs : List Question) : String :=
  String.intercalate "\n\n" (qa_context_parts qs)

end EpicGeneratorAgent

namespace UserStoryGeneratorAgent

/-- The `context_parts` list of `UserStoryGeneratorAgent._build_qa_context`
(agents.py): same shape as the epic builder but without the score line. -/
def qa_context_parts (qs : List Question) : List String :=
  qs.filterMap (fun q =>
    if q.answered = true ∧ q.skipped = false then
      some ("Q: " ++ q.question ++ "\nA: " ++ q.answer)
    else if q.skipped = true then
      some ("Q: " ++ q.question ++ "\nA: [SKIPPED]")
    else none)

/-- `UserStoryGeneratorAgent._build_qa_context` (agents.py). -/
def build_qa_context (qs : List Question) : String :=
  String.intercalate "\n\n" (qa_context_parts qs)

end UserStoryGeneratorAgent

end Agents

/-- The string `s` contains the skip sentinel `[SKIPPED]` as a substring. -/
def mentions_sentinel (s : String) : Prop :=
  ∃ a b : String, s = a ++ "[SKIPPED]" ++ b

namespace Main

/-- The empty `requirement_analysis` dict of the initial state. -/
def initial_analysis : Analysis :=
  { slicing_type := none, recommended_persona := none, domain := none,
    complexity := none, user_types := [], main_features := [],
    confidence := none }

/-- The `initial_state` dict built in `run_workflow` (main.py). -/
def initial_state : WorkflowState :=
  { session_id := "", workflow_type := "", hlr := "",
    selected_project := none, selected_issues := [], issues_detail := "",
    persona := "", slicing_type := "", generation_type := .BOTH,
    phase := .INPUT, questions := [], responses := [],
    validation_results := [], requirement_analysis := initial_analysis,
    epics := [], user_stories := [], feedback_history := [],
    feedback_count := 0, overall_confidence := 0, errors := [],
    current_step := "" }

end Main

/-! Concrete example data used by the counterexamples and witnesses below. -/

/-- A question record for the C2 example session. -/
def c2_question : Agents.Question :=
  { id := "q_sess_1", question := "Which user roles are involved?",
    context := "", reasoning := "", priority := 1, required := true,
    validation_criteria := [] }

/-- A session state holding the C2 example question. -/
def c2_state : Agents.SystemState :=
  { Agents.create_session "sess" "Add password reset via email" .BOTH with
      questions := [c2_question] }

/-- A validation oracle that accepts every answer with `overall_score = 0`
(a score inside the documented `[0,1]` range). -/
def c2_vllm : String → Option Agents.VData :=
  fun _ => some { is_valid := true, overall_score := 0, criteria_scores := [],
                  issues := [], suggestions := [], confidence := 1 }

/-- An epic produced by a prior generation pass, for the C4 example. -/
def c4_epic : Agents.Epic :=
  { id := "epic_sess_1", title := "User authentication",
    description := "Prior-pass epic", business_value := "Security",
    acceptance_criteria := ["Login works"], priority := "High",
    estimated_story_points := 8, dependencies := [], assumptions := [],
    risks := [] }

/-- A session state carrying the prior-pass epic, generating both content
kinds, with no feedback applied yet. -/
def c4_state : Agents.SystemState :=
  { Agents.create_session "sess" "Add password reset via email" .BOTH with
      epics := [c4_epic] }

/-- A parsed feedback-regeneration response that carries a `user_stories`
section but no `epics` section. -/
def c4_updated : Agents.UpdatedData :=
  { epics := none, user_stories := some [] }

/-- A skipped question for the C5 example. -/
def c5_question : Agents.Question :=
  { id := "q_sess_1", question := "Which user roles are involved?",
    context := "", reasoning := "", priority := 1, required := true,
    validation_criteria := [], answered := true, answer := "[SKIPPED]",
    skipped := true }

/-- An agents.py session state at the feedback cap, for the C1 witness. -/
def c1_capped_state : Agents.SystemState :=
  { Agents.create_session "sess" "Add password reset via email" .BOTH with
      feedback_count := 3 }

/-- A fresh (unskipped, unanswered) question for the C6 witness. -/
def c6_question : Main.Question :=
  { id := "q_1", question := "Which user roles are involved?",
    context := "", reasoning := "", priority := 1, required := true }

/-- A main.py state holding the C6 witness question. -/
def c6_state : Main.WorkflowState :=
  { Main.initial_state with questions := [c6_question] }

/-- A Q&A input stream that skips every question. -/
def c6_inputs : Nat → Main.QAInput :=
  fun _ => { resp := "skip", vllm := none, retry := "", newResp := "" }

/-- A parsed feedback-regeneration response carrying both sections, for the
C7 witness. -/
def c7_updated : Agents.UpdatedData :=
  { epics := some [], user_stories := some [] }

/-- A feedback-loop input that supplies feedback and regenerates empty
content, for the C7 witness. -/
def c7_input : Main.FBInput :=
  { satisfied := "no", feedback := "add acceptance criteria",
    epicLlm := some { epics := some [] },
    storyLlm := some { user_stories := some [] } }

/-- A main.py state on the fresh-requirement path, for the C8 witness. -/
def c8_new_state : Main.WorkflowState :=
  { Main.initial_state with workflow_type := "new" }

/-- A main.py state on the existing-project path with a selected project
and selected issues, for the C8 witness. -/
def c8_existing_state : Main.WorkflowState :=
  { Main.initial_state with
      workflow_type := "existing"
      selected_project := some "PROJ"
      selected_issues := ["PROJ-1"] }

/-- A one-issue tracker oracle for the C8 witness. -/
def c8_issues_of : String → List Main.JIRAIssue :=
  fun k => [{ key := k ++ "-1", summary := "Login page", description := "",
              issue_type := "Story", status := "Done", project_key := k }]

/-- A guidance oracle for the C8 witness. -/
def c8_guidance_of : List Main.JIRAIssue → String → String :=
  fun issues hlr => "guidance:" ++ toString issues.length ++ ":" ++ hlr

/-- A question record for the C10 witness. -/
def c10_question : Main.Question :=
  { id := "q_1", question := "Which user roles are involved?",
    context := "", reasoning := "", priority := 1, required := true }

/-- A strict validation verdict (invalid, with issues), for the C10
witness. -/
def c10_verdict : Main.ValidationResult :=
  { is_valid := false, overall_score := 3 / 10,
    issues := ["Answer is too vague"], suggestions := ["Name the roles"],
    confidence := 9 / 10 }

/-- A Q&A input whose answer fails validation and is then improved, for the
C10 witness. -/
def c10_input : Main.QAInput :=
  { resp := "everyone", vllm := some c10_verdict, retry := "y",
    newResp := "admins and registered customers" }

/-- A base session state for the C7 witness. -/
def c7_base : Agents.SystemState :=
  Agents.create_session "sess" "Add password reset via email" .BOTH

/-- An empty Q&A loop accumulator, for the C10 witness. -/
def c10_acc : Main.QALoopState :=
  { phase := .QUESTIONING, qa_responses := [], validation_results := [] }

/-- An invalid validation result, for the C2 witness. -/
def c2w_invalid : Agents.ValidationResult :=
  { is_valid := false, overall_score := 1, criteria_scores := [],
    issues := [], suggestions := [], confidence := 1 }

/-- A valid validation result with a strictly positive score, for the C2
witness. -/
def c2w_valid_half : Agents.ValidationResult :=
  { is_valid := true, overall_score := 1 / 2, criteria_scores := [],
    issues := [], suggestions := [], confidence := 1 }

/-! ## Shared helper lemmas -/

theorem lookup_upsert {α : Type} (k : String) (v : α) (l : List (String × α)) :
    (upsert k v l).lookup k = some v := by
  induction l with
  | nil => simp [upsert, List.lookup]
  | cons p rest ih =>
    obtain ⟨k', v'⟩ := p
    by_cases h : k' = k
    · simp [upsert, h, List.lookup]
    · simp only [upsert, if_neg h, List.lookup]
      have hb : (k == k') = false := by
        rw [beq_eq_false_iff_ne]
        exact fun hh => h hh.symm
      rw [hb]
      exact ih

theorem sum_le_length_of_le_one (l : List ℚ) (h : ∀ x ∈ l, x ≤ 1) :
    l.sum ≤ (l.length : ℚ) := by
  induction l with
  | nil => simp
  | cons x xs ih =>
    simp only [List.sum_cons, List.length_cons]
    push_cast
    have h1 : x ≤ 1 := h x (by simp)
    have h2 : xs.sum ≤ (xs.length : ℚ) := ih (fun y hy => h y (by simp [hy]))
    linarith

theorem mean_mem_unit_interval (l : List ℚ) (hl : ∀ x ∈ l, 0 ≤ x ∧ x ≤ 1) :
    0 ≤ l.sum / (l.length : ℚ) ∧ l.sum / (l.length : ℚ) ≤ 1 := by
  rcases eq_or_ne l [] with rfl | hne
  · simp
  · have hlen : 0 < (l.length : ℚ) := by
      have : 0 < l.length := List.length_pos.mpr hne
      exact_mod_cast this
    constructor
    · exact div_nonneg (List.sum_nonneg (fun x hx => (hl x hx).1)) hlen.le
    · rw [div_le_one hlen]
      exact sum_le_length_of_le_one l (fun x hx => (hl x hx).2)

theorem mean_pos_of_pos (l : List ℚ) (hne : l ≠ []) (hl : ∀ x ∈ l, 0 < x) :
    0 < l.sum / (l.length : ℚ) := by
  have hlen : 0 < (l.length : ℚ) := by
    have : 0 < l.length := List.length_pos.mpr hne
    exact_mod_cast this
  exact div_pos (List.sum_pos l hl hne) hlen

/-! ## C3 -/

/-- C3: when the language-model call raises, main.py's
`analyze_requirement` returns the fixed default analysis (slicing type
`functional`, persona `Business Analyst`, confidence `0.5`),
`generate_questions` returns the empty list, `validate_response` returns
the lenient default verdict (`is_valid = true`, `overall_score = 0.7`),
and `generate_epics` / `generate_user_stories` return the empty list —
each operation returns its default instead of propagating the exception. -/
theorem C3_degrade_defaults :
    Main.analyze_requirement none =
      { slicing_type := some "functional"
        recommended_persona := some "Business Analyst"
        domain := some "general"
        complexity := some "Medium"
        user_types := ["user"]
        main_features := []
        confidence := some (1 / 2) } ∧
    (∀ fresh : Nat → String, Main.generate_questions fresh none = []) ∧
    Main.validate_response none =
      { is_valid := true, overall_score := 7 / 10, issues := [],
        suggestions := [], confidence := 1 / 2 } ∧
    Main.generate_epics none = [] ∧
    Main.generate_user_stories none = [] :=
  ⟨rfl, fun _ => rfl, rfl, rfl, rfl⟩

/-! ## C8 -/

/-- C8: the routing decision after the start phase selects the
existing-project path exactly when `workflow_type = "existing"`; on that
path (with a nonempty selected project key and selected issues, and a
reachable tracker) the grounding context is assembled from the tracker's
issues for the selected project; for every other workflow type the
fresh-requirement path is selected and the grounding context stays empty. -/
theorem C8_routing :
    (∀ s : Main.WorkflowState,
        Main.should_use_jira s = "jira_integration" ↔ s.workflow_type = "existing") ∧
    (∀ (s : Main.WorkflowState) ps iss go, s.workflow_type ≠ "existing" →
        Main.should_use_jira s = "new_requirement" ∧
        Main.jira_guidance_of ps iss go s = "") ∧
    (∀ (s : Main.WorkflowState) ps iss go p, s.workflow_type = "existing" →
        s.selected_issues ≠ [] → ps ≠ [] → s.selected_project = some p → p ≠ "" →
        Main.jira_guidance_of ps iss go s = go (iss p) s.hlr) := by
  refine ⟨?_, ?_, ?_⟩
  · intro s
    unfold Main.should_use_jira
    constructor
    · intro h
      by_contra hw
      rw [if_neg hw] at h
      exact absurd h (by decide)
    · intro h
      rw [if_pos h]
  · intro s ps iss go h
    unfold Main.should_use_jira Main.jira_guidance_of
    constructor
    · rw [if_neg h]
    · rw [if_neg (by simp [h])]
  · intro s ps iss go p h1 h2 h3 h4 h5
    unfold Main.jira_guidance_of
    rw [if_pos ⟨h1, h2⟩, if_pos h3, h4]
    show (if p ≠ "" then go (iss p) s.hlr else "") = go (iss p) s.hlr
    rw [if_pos h5]

/-- Witness for C8 at the concrete example states. -/
theorem C8_routing_witness :
    (Main.should_use_jira c8_new_state = "new_requirement" ∧
      Main.jira_guidance_of ["PROJ"] c8_issues_of c8_guidance_of c8_new_state = "") ∧
    Main.jira_guidance_of ["PROJ"] c8_issues_of c8_guidance_of c8_existing_state
      = c8_guidance_of (c8_issues_of "PROJ") c8_existing_state.hlr ∧
    (Main.should_use_jira c8_existing_state = "jira_integration" ↔
      c8_existing_state.workflow_type = "existing") := by
  refine ⟨C8_routing.2.1 c8_new_state ["PROJ"] c8_issues_of c8_guidance_of (by decide),
          C8_routing.2.2 c8_existing_state ["PROJ"] c8_issues_of c8_guidance_of "PROJ"
            (by decide) (by decide) (by decide) rfl (by decide),
          C8_routing.1 c8_existing_state⟩

/-! ## C9 -/

/-- C9: whenever generation produced zero epics and zero user stories, the
final step appends the "No content generated" error string to the error log
and still sets the phase to `COMPLETE`; the phase reaches `COMPLETE` for
every state, so an empty generation outcome never halts the workflow. -/
theorem C9_empty_generation :
    (∀ s : Main.WorkflowState,
        (Main.final_validation_node s).phase = Main.AnalysisPhase.COMPLETE) ∧
    (∀ s : Main.WorkflowState, s.epics = [] → s.user_stories = [] →
        (Main.final_validation_node s).errors = s.errors ++ ["No content generated"]) := by
  constructor
  · intro s
    by_cases h : s.epics = [] ∧ s.user_stories = [] <;>
      simp [Main.final_validation_node, h]
  · intro s h1 h2
    simp [Main.final_validation_node, h1, h2]

/-- Witness for C9 at the initial state (which has no generated content). -/
theorem C9_empty_generation_witness :
    (Main.final_validation_node Main.initial_state).phase = Main.AnalysisPhase.COMPLETE ∧
    (Main.final_validation_node Main.initial_state).errors
      = Main.initial_state.errors ++ ["No content generated"] :=
  ⟨C9_empty_generation.1 Main.initial_state,
   C9_empty_generation.2 Main.initial_state rfl rfl⟩

/-! ## Characterization of a successful feedback application -/

theorem apply_feedback_ok_spec (u : Agents.UpdatedData) (s : Agents.SystemState)
    (fb : String) (s' : Agents.SystemState)
    (h : Agents.apply_feedback (some u) s fb = .ok s') :
    s'.feedback_history = s.feedback_history ++ [fb] ∧
    s'.feedback_count = s.feedback_count + 1 ∧
    s'.questions = s.questions ∧
    s'.epics = (if s.generation_type = some Agents.GenerationType.EPICS_ONLY ∨
                   s.generation_type = some Agents.GenerationType.BOTH
                then match u.epics with
                  | some es => Agents.rebuild_epics es s.session_id
                  | none => s.epics
                else s.epics) ∧
    s'.user_stories = (if s.generation_type = some Agents.GenerationType.STORIES_ONLY ∨
                          s.generation_type = some Agents.GenerationType.BOTH
                then match u.user_stories with
                  | some ss => Agents.rebuild_user_stories ss s.session_id
                  | none => s.user_stories
                else s.user_stories) := by
  simp only [Agents.apply_feedback] at h
  repeat' split at h
  all_goals (cases h; simp_all)

theorem apply_feedback_err_spec (d : Option Agents.UpdatedData)
    (s : Agents.SystemState) (fb : String) (s' : Agents.SystemState)
    (h : Agents.apply_feedback d s fb = .error s') :
    s'.feedback_count = s.feedback_count ∧ s'.questions = s.questions := by
  cases d with
  | none =>
    simp only [Agents.apply_feedback] at h
    cases h
    exact ⟨rfl, rfl⟩
  | some u =>
    simp only [Agents.apply_feedback] at h
    repeat' split at h
    all_goals cases h

theorem feedback_step_true_spec (inp : Main.FBInput) (s s' : Main.WorkflowState)
    (h : Main.feedback_step inp s = (s', true)) :
    s'.feedback_history = s.feedback_history ++ [pyStrip inp.feedback] ∧
    s'.feedback_count = s.feedback_count + 1 ∧
    s'.epics = (if s.generation_type = Main.GenerationType.EPICS_ONLY ∨
                   s.generation_type = Main.GenerationType.BOTH
                then Main.generate_epics inp.epicLlm else s.epics) ∧
    s'.user_stories = (if s.generation_type = Main.GenerationType.STORIES_ONLY ∨
                          s.generation_type = Main.GenerationType.BOTH
                then Main.generate_user_stories inp.storyLlm else s.user_stories) := by
  simp only [Main.feedback_step] at h
  repeat' split at h
  all_goals (
    rw [Prod.mk.injEq] at h
    obtain ⟨h1, h2⟩ := h
    first
      | exact absurd h2 (by decide)
      | (subst h1; simp_all))

/-! ## C7 -/

/-- C7: every completed feedback application appends the raw feedback
string to the feedback history and increments the feedback counter by
exactly one — in agents.py's `apply_feedback` (for any regenerated content)
and in each applying iteration of main.py's `feedback_node` loop. -/
theorem C7_feedback_append :
    (∀ (d : Option Agents.UpdatedData) (s : Agents.SystemState) (fb : String)
        (s' : Agents.SystemState), Agents.apply_feedback d s fb = .ok s' →
        s'.feedback_history = s.feedback_history ++ [fb] ∧
        s'.feedback_count = s.feedback_count + 1) ∧
    (∀ (inp : Main.FBInput) (s s' : Main.WorkflowState),
        Main.feedback_step inp s = (s', true) →
        s'.feedback_history = s.feedback_history ++ [pyStrip inp.feedback] ∧
        s'.feedback_count = s.feedback_count + 1) := by
  constructor
  · intro d s fb s' h
    cases d with
    | none => simp [Agents.apply_feedback] at h
    | some u =>
      obtain ⟨h1, h2, -⟩ := apply_feedback_ok_spec u s fb s' h
      exact ⟨h1, h2⟩
  · intro inp s s' h
    obtain ⟨h1, h2, -⟩ := feedback_step_true_spec inp s s' h
    exact ⟨h1, h2⟩

/-- Witness for C7: a concrete feedback application in each engine. -/
theorem C7_feedback_append_witness :
    (Agents.estate (Agents.apply_feedback (some c7_updated) c7_base "add detail")).feedback_history
      = c7_base.feedback_history ++ ["add detail"] ∧
    (Agents.estate (Agents.apply_feedback (some c7_updated) c7_base "add detail")).feedback_count
      = c7_base.feedback_count + 1 ∧
    (Main.feedback_step c7_input Main.initial_state).1.feedback_count
      = Main.initial_state.feedback_count + 1 ∧
    (Main.feedback_step c7_input Main.initial_state).1.feedback_history
      = Main.initial_state.feedback_history ++ [pyStrip c7_input.feedback] := by
  have h1 : Agents.apply_feedback (some c7_updated) c7_base "add detail"
      = .ok (Agents.estate (Agents.apply_feedback (some c7_updated) c7_base "add detail")) := rfl
  have h2 : Main.feedback_step c7_input Main.initial_state
      = ((Main.feedback_step c7_input Main.initial_state).1, true) := by decide
  obtain ⟨a, b⟩ := C7_feedback_append.1 (some c7_updated) c7_base "add detail" _ h1
  obtain ⟨c, d⟩ := C7_feedback_append.2 c7_input Main.initial_state _ h2
  exact ⟨a, b, d, c⟩

/-! ## C4 -/

/-- C4 fails as stated: a completed agents.py `apply_feedback` call whose
parsed output carries no `epics` section leaves the prior pass's epic in
the list (while still counting as an applied feedback). -/
theorem C4_wholesale_counterexample :
    (Agents.apply_feedback (some c4_updated) c4_state "tighten the stories").map
        Agents.SystemState.epics = Except.ok [c4_epic] ∧
    c4_updated.epics = none ∧
    c4_state.epics = [c4_epic] ∧
    (Agents.apply_feedback (some c4_updated) c4_state "tighten the stories").map
        Agents.SystemState.feedback_count = Except.ok 1 := by
  refine ⟨rfl, rfl, rfl, rfl⟩

/-- C4 amended: after any successful generation call the epics/stories list
equals the records built from that call's parsed output, and likewise after
each regeneration iteration of main.py's feedback loop; in agents.py's
`apply_feedback`, a list is rebuilt wholesale from the latest parsed output
exactly when the generation type covers it and the output carries the
corresponding section — otherwise that list is retained unchanged. -/
theorem C4_wholesale_amended :
    (∀ (p : Agents.EpicParse) (s : Agents.SystemState),
        (Agents.generate_epics (some p) s).map Agents.SystemState.epics
          = Except.ok (Agents.rebuild_epics (p.epics.getD []) s.session_id)) ∧
    (∀ (p : Agents.StoryParse) (s : Agents.SystemState),
        (Agents.generate_user_stories (some p) s).map Agents.SystemState.user_stories
          = Except.ok (Agents.rebuild_user_stories (p.user_stories.getD []) s.session_id)) ∧
    (∀ (u : Agents.UpdatedData) (s s' : Agents.SystemState) (fb : String)
        (es : List Agents.EpicInfo),
        Agents.apply_feedback (some u) s fb = .ok s' →
        (s.generation_type = some Agents.GenerationType.EPICS_ONLY ∨
         s.generation_type = some Agents.GenerationType.BOTH) →
        u.epics = some es → s'.epics = Agents.rebuild_epics es s.session_id) ∧
    (∀ (u : Agents.UpdatedData) (s s' : Agents.SystemState) (fb : String),
        Agents.apply_feedback (some u) s fb = .ok s' →
        u.epics = none → s'.epics = s.epics) ∧
    (∀ (u : Agents.UpdatedData) (s s' : Agents.SystemState) (fb : String)
        (ss : List Agents.StoryInfo),
        Agents.apply_feedback (some u) s fb = .ok s' →
        (s.generation_type = some Agents.GenerationType.STORIES_ONLY ∨
         s.generation_type = some Agents.GenerationType.BOTH) →
        u.user_stories = some ss →
        s'.user_stories = Agents.rebuild_user_stories ss s.session_id) ∧
    (∀ (u : Agents.UpdatedData) (s s' : Agents.SystemState) (fb : String),
        Agents.apply_feedback (some u) s fb = .ok s' →
        u.user_stories = none → s'.user_stories = s.user_stories) ∧
    (∀ (inp : Main.FBInput) (s s' : Main.WorkflowState),
        Main.feedback_step inp s = (s', true) →
        (s.generation_type = Main.GenerationType.EPICS_ONLY ∨
         s.generation_type = Main.GenerationType.BOTH) →
        s'.epics = Main.generate_epics inp.epicLlm) ∧
    (∀ (inp : Main.FBInput) (s s' : Main.WorkflowState),
        Main.feedback_step inp s = (s', true) →
        (s.generation_type = Main.GenerationType.STORIES_ONLY ∨
         s.generation_type = Main.GenerationType.BOTH) →
        s'.user_stories = Main.generate_user_stories inp.storyLlm) := by
  refine ⟨fun p s => rfl, fun p s => rfl, ?_, ?_, ?_, ?_, ?_, ?_⟩
  · intro u s s' fb es h hg he
    rw [(apply_feedback_ok_spec u s fb s' h).2.2.2.1]
    rw [if_pos hg, he]
  · intro u s s' fb h he
    rw [(apply_feedback_ok_spec u s fb s' h).2.2.2.1, he]
    split <;> rfl
  · intro u s s' fb ss h hg he
    rw [(apply_feedback_ok_spec u s fb s' h).2.2.2.2]
    rw [if_pos hg, he]
  · intro u s s' fb h he
    rw [(apply_feedback_ok_spec u s fb s' h).2.2.2.2, he]
    split <;> rfl
  · intro inp s s' h hg
    rw [(feedback_step_true_spec inp s s' h).2.2.1, if_pos hg]
  · intro inp s s' h hg
    rw [(feedback_step_true_spec inp s s' h).2.2.2, if_pos hg]

/-- Witness for the amended C4 at concrete feedback applications. -/
theorem C4_wholesale_amended_witness :
    (Agents.estate (Agents.apply_feedback (some c7_updated) c4_state "tighten")).epics
      = Agents.rebuild_epics [] c4_state.session_id ∧
    (Agents.estate (Agents.apply_feedback (some c4_updated) c4_state "tighten")).epics
      = c4_state.epics ∧
    (Main.feedback_step c7_input Main.initial_state).1.epics
      = Main.generate_epics c7_input.epicLlm := by
  have h1 : Agents.apply_feedback (some c7_updated) c4_state "tighten"
      = .ok (Agents.estate (Agents.apply_feedback (some c7_updated) c4_state "tighten")) := rfl
  have h2 : Agents.apply_feedback (some c4_updated) c4_state "tighten"
      = .ok (Agents.estate (Agents.apply_feedback (some c4_updated) c4_state "tighten")) := rfl
  have h3 : Main.feedback_step c7_input Main.initial_state
      = ((Main.feedback_step c7_input Main.initial_state).1, true) := by decide
  exact ⟨C4_wholesale_amended.2.2.1 c7_updated c4_state _ "tighten" [] h1 (Or.inr rfl) rfl,
         C4_wholesale_amended.2.2.2.1 c4_updated c4_state _ "tighten" h2 rfl,
         C4_wholesale_amended.2.2.2.2.2.2.1 c7_input Main.initial_state _ h3 (Or.inr rfl)⟩

/-! ## C5 -/

/-- C5 fails as stated: agents.py's `_build_qa_context` (used for epic and
story generation) emits an entry for a skipped question, and the sentinel
answer `[SKIPPED]` appears verbatim in the assembled context string. -/
theorem C5_skip_context_counterexample :
    c5_question.skipped = true ∧
    mentions_sentinel (Agents.EpicGeneratorAgent.build_qa_context [c5_question]) ∧
    mentions_sentinel (Agents.UserStoryGeneratorAgent.build_qa_context [c5_question]) := by
  refine ⟨rfl, ⟨"Q: Which user roles are involved?\nA: ", "", by decide⟩,
          ⟨"Q: Which user roles are involved?\nA: ", "", by decide⟩⟩

/-- C5 amended: main.py's QA context contains an entry exactly for the
responses that are nonempty and differ from the sentinel (and skipped
questions never reach that responses dict), but agents.py's context
builders additionally emit, for every skipped question, an entry whose
answer is the sentinel `[SKIPPED]`. -/
theorem C5_skip_context_amended :
    (∀ (rs : List (String × String)) (part : String),
        part ∈ Main.qa_context_parts rs →
        ∃ p ∈ rs, p.2 ≠ "" ∧ p.2 ≠ "[SKIPPED]" ∧ part = "- " ++ p.2) ∧
    (∀ (rs : List (String × String)) (p : String × String), p ∈ rs →
        p.2 ≠ "" → p.2 ≠ "[SKIPPED]" → ("- " ++ p.2) ∈ Main.qa_context_parts rs) ∧
    (∀ (qs : List Agents.Question) (q : Agents.Question), q ∈ qs → q.skipped = true →
        ("Q: " ++ q.question ++ "\nA: [SKIPPED]")
            ∈ Agents.EpicGeneratorAgent.qa_context_parts qs ∧
        ("Q: " ++ q.question ++ "\nA: [SKIPPED]")
            ∈ Agents.UserStoryGeneratorAgent.qa_context_parts qs) := by
  refine ⟨?_, ?_, ?_⟩
  · intro rs part hp
    unfold Main.qa_context_parts at hp
    rw [List.mem_filterMap] at hp
    obtain ⟨p, hmem, heq⟩ := hp
    by_cases hc : p.2 ≠ "" ∧ p.2 ≠ "[SKIPPED]"
    · rw [if_pos hc] at heq
      exact ⟨p, hmem, hc.1, hc.2, (Option.some.inj heq).symm⟩
    · rw [if_neg hc] at heq
      exact absurd heq (by simp)
  · intro rs p hmem h1 h2
    unfold Main.qa_context_parts
    rw [List.mem_filterMap]
    exact ⟨p, hmem, by rw [if_pos ⟨h1, h2⟩]⟩
  · intro qs q hmem hsk
    have h1 : ¬(q.answered = true ∧ q.skipped = false) := by
      rintro ⟨-, h2⟩
      rw [hsk] at h2
      exact absurd h2 (by decide)
    constructor
    · unfold Agents.EpicGeneratorAgent.qa_context_parts
      rw [List.mem_filterMap]
      exact ⟨q, hmem, by rw [if_neg h1, if_pos hsk]⟩
    · unfold Agents.UserStoryGeneratorAgent.qa_context_parts
      rw [List.mem_filterMap]
      exact ⟨q, hmem, by rw [if_neg h1, if_pos hsk]⟩

/-- Witness for the amended C5 at concrete inputs. -/
theorem C5_skip_context_amended_witness :
    (∃ p ∈ [("q_sess_1", "admins and customers")],
        p.2 ≠ "" ∧ p.2 ≠ "[SKIPPED]" ∧ "- admins and customers" = "- " ++ p.2) ∧
    ("- admins and customers") ∈ Main.qa_context_parts [("q_sess_1", "admins and customers")] ∧
    ("Q: " ++ c5_question.question ++ "\nA: [SKIPPED]")
        ∈ Agents.EpicGeneratorAgent.qa_context_parts [c5_question] ∧
    ("Q: " ++ c5_question.question ++ "\nA: [SKIPPED]")
        ∈ Agents.UserStoryGeneratorAgent.qa_context_parts [c5_question] := by
  refine ⟨C5_skip_context_amended.1 [("q_sess_1", "admins and customers")]
            "- admins and customers" (by decide),
          C5_skip_context_amended.2.1 [("q_sess_1", "admins and customers")]
            ("q_sess_1", "admins and customers") (by simp) (by decide) (by decide),
          (C5_skip_context_amended.2.2 [c5_question] c5_question (by simp) rfl).1,
          (C5_skip_context_amended.2.2 [c5_question] c5_question (by simp) rfl).2⟩

/-! ## C2 -/

theorem agents_confidence_cases (vrs : List Agents.ValidationResult) :
    ((vrs.filter (fun vr => vr.is_valid)).map (fun vr => vr.overall_score) = [] ∧
        Agents.overall_confidence_calc vrs = 0) ∨
    ((vrs.filter (fun vr => vr.is_valid)).map (fun vr => vr.overall_score) ≠ [] ∧
        Agents.overall_confidence_calc vrs
          = arith_mean ((vrs.filter (fun vr => vr.is_valid)).map (fun vr => vr.overall_score))) := by
  rcases h : (vrs.filter (fun vr => vr.is_valid)).map (fun vr => vr.overall_score) with - | ⟨a, l⟩
  · exact Or.inl ⟨h, by simp [Agents.overall_confidence_calc, h]⟩
  · exact Or.inr ⟨by simp [h], by simp [Agents.overall_confidence_calc, h, arith_mean]⟩

theorem main_confidence_cases (vrs : List Main.ValidationResult) :
    ((vrs.filter (fun vr => vr.is_valid)).map (fun vr => vr.overall_score) = [] ∧
        Main.overall_confidence_calc vrs = 0) ∨
    ((vrs.filter (fun vr => vr.is_valid)).map (fun vr => vr.overall_score) ≠ [] ∧
        Main.overall_confidence_calc vrs
          = arith_mean ((vrs.filter (fun vr => vr.is_valid)).map (fun vr => vr.overall_score))) := by
  rcases h : (vrs.filter (fun vr => vr.is_valid)).map (fun vr => vr.overall_score) with - | ⟨a, l⟩
  · exact Or.inl ⟨h, by simp [Main.overall_confidence_calc, h]⟩
  · exact Or.inr ⟨by simp [h], by simp [Main.overall_confidence_calc, h, arith_mean]⟩

theorem agents_calc_zero_of_no_valid (vrs : List Agents.ValidationResult)
    (h : ∀ vr ∈ vrs, vr.is_valid = false) : Agents.overall_confidence_calc vrs = 0 := by
  have hfil : vrs.filter (fun vr => vr.is_valid) = [] :=
    List.filter_eq_nil_iff.mpr (fun a ha => by simp [h a ha])
  rcases agents_confidence_cases vrs with ⟨-, hc⟩ | ⟨hne, -⟩
  · exact hc
  · exact absurd (by simp [hfil]) hne

theorem main_calc_zero_of_no_valid (vrs : List Main.ValidationResult)
    (h : ∀ vr ∈ vrs, vr.is_valid = false) : Main.overall_confidence_calc vrs = 0 := by
  have hfil : vrs.filter (fun vr => vr.is_valid) = [] :=
    List.filter_eq_nil_iff.mpr (fun a ha => by simp [h a ha])
  rcases main_confidence_cases vrs with ⟨-, hc⟩ | ⟨hne, -⟩
  · exact hc
  · exact absurd (by simp [hfil]) hne

/-- C2 fails as stated: a batch whose single answer is validated as valid
with `overall_score = 0.0` (a score inside the documented `[0,1]` range)
yields `overall_confidence = 0.0` even though a validation result with
`is_valid = true` exists — so `overall_confidence = 0.0` does not hold
exactly when no validation result is valid. -/
theorem C2_confidence_counterexample :
    (Agents.process_qa_session c2_vllm c2_state
        [("q_sess_1", "the admins")] []).overall_confidence = 0 ∧
    (Agents.process_qa_session c2_vllm c2_state
        [("q_sess_1", "the admins")] []).validation_results.map
          (fun p => (p.2.is_valid, p.2.overall_score)) = [(true, 0)] := by
  have h1 : (Agents.process_qa_session c2_vllm c2_state
        [("q_sess_1", "the admins")] []).overall_confidence
      = Agents.overall_confidence_calc
          [Agents.mkVR { is_valid := true, overall_score := 0, criteria_scores := [],
                         issues := [], suggestions := [], confidence := 1 }] := rfl
  constructor
  · rw [h1]
    norm_num [Agents.overall_confidence_calc, Agents.mkVR]
  · rfl

/-- C2 amended: after every batch of answer validations (in both engines)
the overall confidence equals the mean `overall_score` over the stored
validation results with `is_valid = true` (`0.0` if there are none); with
every score in `[0,1]` the confidence lies in `[0,1]`; it is `0.0` whenever
no validation result is valid, and — provided every valid result carries a
strictly positive score — it is `0.0` exactly when no validation result is
valid.  (Without the positivity proviso only the if direction holds, as the
counterexample shows.) -/
theorem C2_confidence_amended :
    (∀ (vllm : String → Option Agents.VData) (s : Agents.SystemState)
        (rs : List (String × String)) (sk : List String),
        (Agents.process_qa_session vllm s rs sk).overall_confidence
          = Agents.overall_confidence_calc
              ((Agents.process_qa_session vllm s rs sk).validation_results.map Prod.snd)) ∧
    (∀ (inputs : Nat → Main.QAInput) (st : Main.WorkflowState),
        (Main.requirement_analysis_qa inputs st).overall_confidence
          = Main.overall_confidence_calc
              ((Main.requirement_analysis_qa inputs st).validation_results.map Prod.snd)) ∧
    (∀ vrs : List Agents.ValidationResult,
        (vrs.filter (fun vr => vr.is_valid)).map (fun vr => vr.overall_score) ≠ [] →
        Agents.overall_confidence_calc vrs
          = arith_mean ((vrs.filter (fun vr => vr.is_valid)).map (fun vr => vr.overall_score))) ∧
    (∀ vrs : List Agents.ValidationResult,
        (∀ vr ∈ vrs, 0 ≤ vr.overall_score ∧ vr.overall_score ≤ 1) →
        0 ≤ Agents.overall_confidence_calc vrs ∧ Agents.overall_confidence_calc vrs ≤ 1) ∧
    (∀ vrs : List Main.ValidationResult,
        (∀ vr ∈ vrs, 0 ≤ vr.overall_score ∧ vr.overall_score ≤ 1) →
        0 ≤ Main.overall_confidence_calc vrs ∧ Main.overall_confidence_calc vrs ≤ 1) ∧
    (∀ vrs : List Agents.ValidationResult,
        (∀ vr ∈ vrs, vr.is_valid = false) → Agents.overall_confidence_calc vrs = 0) ∧
    (∀ vrs : List Main.ValidationResult,
        (∀ vr ∈ vrs, vr.is_valid = false) → Main.overall_confidence_calc vrs = 0) ∧
    (∀ vrs : List Agents.ValidationResult,
        (∀ vr ∈ vrs, vr.is_valid = true → 0 < vr.overall_score) →
        (Agents.overall_confidence_calc vrs = 0 ↔ ∀ vr ∈ vrs, vr.is_valid = false)) := by
  refine ⟨fun vllm s rs sk => rfl, fun inputs st => rfl, ?_, ?_, ?_, ?_, ?_, ?_⟩
  · intro vrs hne
    rcases agents_confidence_cases vrs with ⟨h0, -⟩ | ⟨-, hc⟩
    · exact absurd h0 hne
    · exact hc
  · intro vrs h
    rcases agents_confidence_cases vrs with ⟨-, hc⟩ | ⟨-, hc⟩
    · rw [hc]
      norm_num
    · rw [hc]
      unfold arith_mean
      apply mean_mem_unit_interval
      intro x hx
      rw [List.mem_map] at hx
      obtain ⟨vr, hvr, rfl⟩ := hx
      exact h vr (List.mem_of_mem_filter hvr)
  · intro vrs h
    rcases main_confidence_cases vrs with ⟨-, hc⟩ | ⟨-, hc⟩
    · rw [hc]
      norm_num
    · rw [hc]
      unfold arith_mean
      apply mean_mem_unit_interval
      intro x hx
      rw [List.mem_map] at hx
      obtain ⟨vr, hvr, rfl⟩ := hx
      exact h vr (List.mem_of_mem_filter hvr)
  · exact agents_calc_zero_of_no_valid
  · exact main_calc_zero_of_no_valid
  · intro vrs hpos
    constructor
    · intro h0
      by_contra hex
      push_neg at hex
      obtain ⟨vr, hmem, hvv⟩ := hex
      have hval : vr.is_valid = true := by
        revert hvv
        cases vr.is_valid <;> simp
      have hvfil : vr ∈ vrs.filter (fun vr => vr.is_valid) :=
        List.mem_filter.mpr ⟨hmem, hval⟩
      have hscores_ne :
          (vrs.filter (fun vr => vr.is_valid)).map (fun vr => vr.overall_score) ≠ [] := by
        intro hnil
        rw [List.map_eq_nil_iff] at hnil
        rw [hnil] at hvfil
        exact absurd hvfil (List.not_mem_nil vr)
      rcases agents_confidence_cases vrs with ⟨hn, -⟩ | ⟨-, hc⟩
      · exact hscores_ne hn
      · rw [hc] at h0
        have hpos' : 0 < arith_mean
            ((vrs.filter (fun vr => vr.is_valid)).map (fun vr => vr.overall_score)) := by
          unfold arith_mean
          apply mean_pos_of_pos _ hscores_ne
          intro x hx
          rw [List.mem_map] at hx
          obtain ⟨w, hw, rfl⟩ := hx
          exact hpos w (List.mem_of_mem_filter hw) (List.of_mem_filter hw)
        rw [h0] at hpos'
        exact lt_irrefl 0 hpos'
    · exact agents_calc_zero_of_no_valid vrs

/-- Witness for the amended C2: the example batch and an all-invalid and a
positively-scored computation. -/
theorem C2_confidence_amended_witness :
    (Agents.process_qa_session c2_vllm c2_state
        [("q_sess_1", "the admins")] []).overall_confidence
      = Agents.overall_confidence_calc
          ((Agents.process_qa_session c2_vllm c2_state
              [("q_sess_1", "the admins")] []).validation_results.map Prod.snd) ∧
    (0 ≤ Agents.overall_confidence_calc [] ∧ Agents.overall_confidence_calc [] ≤ 1) ∧
    Agents.overall_confidence_calc [c2w_invalid] = 0 ∧
    (Agents.overall_confidence_calc [c2w_valid_half] = 0 ↔
      ∀ vr ∈ [c2w_valid_half], vr.is_valid = false) := by
  refine ⟨C2_confidence_amended.1 c2_vllm c2_state [("q_sess_1", "the admins")] [],
          C2_confidence_amended.2.2.2.1 [] (by simp),
          C2_confidence_amended.2.2.2.2.2.1 _ (by simp [c2w_invalid]),
          C2_confidence_amended.2.2.2.2.2.2.2 _ ?_⟩
  intro vr hvr hv
  simp at hvr
  rw [hvr]
  norm_num [c2w_valid_half]

/-! ## C10 -/

/-- C10: in the Q&A loop of main.py, when a response's validation verdict
is invalid (with issues) and the user supplies a nonempty improved answer,
the improved answer replaces the stored answer in the responses dict and in
the question record, but is never re-validated: the validation-results dict
retains the verdict computed for the superseded answer, and the overall
confidence is subsequently recomputed from those stored (stale) verdicts. -/
theorem C10_stale_validation :
    ∀ (inp : Main.QAInput) (q : Main.Question) (acc : Main.QALoopState)
      (vr : Main.ValidationResult),
      inp.vllm = some vr →
      pyLower (pyStrip inp.resp) ≠ "skip" →
      pyStrip inp.resp ≠ "" →
      vr.is_valid = false →
      vr.issues ≠ [] →
      pyLower (pyStrip inp.retry) = "y" →
      pyStrip inp.newResp ≠ "" →
      (Main.process_question inp q acc).1.answered = true ∧
      (Main.process_question inp q acc).1.answer = pyStrip inp.newResp ∧
      ((Main.process_question inp q acc).2.qa_responses.lookup q.id)
          = some (pyStrip inp.newResp) ∧
      ((Main.process_question inp q acc).2.validation_results.lookup q.id) = some vr ∧
      (∀ (inputs : Nat → Main.QAInput) (st : Main.WorkflowState),
          (Main.requirement_analysis_qa inputs st).overall_confidence
            = Main.overall_confidence_calc
                ((Main.requirement_analysis_qa inputs st).validation_results.map Prod.snd)) := by
  intro inp q acc vr hv hskip hne hval hiss hretry hnr
  have hvr : Main.validate_response inp.vllm = vr := by
    rw [hv]
    rfl
  simp only [Main.process_question, hvr]
  rw [if_neg hskip, if_pos hne, if_pos ⟨hval, hiss⟩, if_pos hretry, if_pos hnr]
  exact ⟨rfl, rfl, lookup_upsert q.id (pyStrip inp.newResp) _,
         lookup_upsert q.id vr acc.validation_results,
         fun inputs st => rfl⟩

/-- Witness for C10 at a concrete failed-then-improved answer. -/
theorem C10_stale_validation_witness :
    (Main.process_question c10_input c10_question c10_acc).1.answered = true ∧
    (Main.process_question c10_input c10_question c10_acc).1.answer
        = pyStrip c10_input.newResp ∧
    ((Main.process_question c10_input c10_question c10_acc).2.qa_responses.lookup
        c10_question.id) = some (pyStrip c10_input.newResp) ∧
    ((Main.process_question c10_input c10_question c10_acc).2.validation_results.lookup
        c10_question.id) = some c10_verdict := by
  obtain ⟨h1, h2, h3, h4, -⟩ :=
    C10_stale_validation c10_input c10_question c10_acc c10_verdict rfl
      (by decide) (by decide) rfl (by decide) (by decide) (by decide)
  exact ⟨h1, h2, h3, h4⟩

/-! ## Frame lemmas for the agents.py engine operations -/

theorem analyze_count (d : Option Agents.AnalysisData) (s : Agents.SystemState) :
    (Agents.estate (Agents.analyze_requirement d s)).feedback_count = s.feedback_count := by
  cases d <;> rfl

theorem analyze_questions (d : Option Agents.AnalysisData) (s : Agents.SystemState) :
    (Agents.estate (Agents.analyze_requirement d s)).questions = s.questions := by
  cases d <;> rfl

theorem generate_questions_count (cfg : Bool) (d : Option (List Agents.QData))
    (s : Agents.SystemState) :
    (Agents.estate (Agents.generate_questions cfg d s)).feedback_count = s.feedback_count := by
  cases cfg <;> cases d <;> simp [Agents.generate_questions, Agents.estate]

theorem generate_questions_ok_unskipped (cfg : Bool) (d : Option (List Agents.QData))
    (s s' : Agents.SystemState) (h : Agents.generate_questions cfg d s = .ok s') :
    Agents.AllUnskipped s' := by
  unfold Agents.generate_questions at h
  split at h
  · cases h
  · cases d with
    | some qs =>
      cases h
      intro q hq
      rw [List.mem_map] at hq
      obtain ⟨p, hp, rfl⟩ := hq
      rfl
    | none => cases h

theorem generate_questions_err_questions (cfg : Bool) (d : Option (List Agents.QData))
    (s s' : Agents.SystemState) (h : Agents.generate_questions cfg d s = .error s') :
    s'.questions = s.questions := by
  unfold Agents.generate_questions at h
  split at h
  · cases h; rfl
  · cases d with
    | some qs => cases h
    | none => cases h; rfl

theorem validate_count (d : Option Agents.VData) (s : Agents.SystemState)
    (qid r : String) :
    (Agents.estate (Agents.validate_response d s qid r)).feedback_count
      = s.feedback_count := by
  unfold Agents.validate_response
  split
  · rfl
  · cases d <;> rfl

theorem updQuestion_mem {qid : String} {f : Agents.Question → Agents.Question}
    {l : List Agents.Question} {q' : Agents.Question}
    (h : q' ∈ Agents.updQuestion qid f l) :
    q' ∈ l ∨ ∃ q, q ∈ l ∧ q.id = qid ∧ q' = f q := by
  induction l with
  | nil => simp [Agents.updQuestion] at h
  | cons q qs ih =>
    unfold Agents.updQuestion at h
    by_cases hq : q.id = qid
    · rw [if_pos hq] at h
      rcases List.mem_cons.mp h with h1 | h1
      · exact Or.inr ⟨q, List.mem_cons_self q qs, hq, h1⟩
      · exact Or.inl (List.mem_cons_of_mem q h1)
    · rw [if_neg hq] at h
      rcases List.mem_cons.mp h with h1 | h1
      · exact Or.inl (by rw [h1]; exact List.mem_cons_self q qs)
      · rcases ih h1 with h2 | ⟨w, hw, hid, he⟩
        · exact Or.inl (List.mem_cons_of_mem q h2)
        · exact Or.inr ⟨w, List.mem_cons_of_mem q hw, hid, he⟩

/-- The marking invariant carried through the answered-question loop of
`process_qa_session`: every skipped question is answered with the sentinel
and was named in the skipped-id list. -/
def MarkedInv (sk : List String) (s : Agents.SystemState) : Prop :=
  ∀ q ∈ s.questions, q.skipped = true →
    q.answered = true ∧ q.answer = "[SKIPPED]" ∧ q.id ∈ sk

theorem mark_establishes (sk : List String) (s : Agents.SystemState)
    (h : Agents.AllUnskipped s) :
    MarkedInv sk { s with questions := s.questions.map (Agents.markSkipped sk) } := by
  intro q hq hsk
  rw [List.mem_map] at hq
  obtain ⟨q0, hq0, rfl⟩ := hq
  unfold Agents.markSkipped at hsk ⊢
  by_cases hin : q0.id ∈ sk
  · rw [if_pos hin]
    exact ⟨rfl, rfl, hin⟩
  · exfalso
    rw [if_neg hin] at hsk
    rw [h q0 hq0] at hsk
    exact absurd hsk (by decide)

theorem validate_marked (d : Option Agents.VData) (s : Agents.SystemState)
    (qid r : String) (sk : List String) (hnot : qid ∉ sk) (h : MarkedInv sk s) :
    MarkedInv sk (Agents.estate (Agents.validate_response d s qid r)) := by
  unfold Agents.validate_response
  split
  · exact h
  · cases d with
    | none => exact h
    | some v =>
      intro q hq hsk
      rcases updQuestion_mem hq with h1 | ⟨w, hw, hid, rfl⟩
      · exact h q h1 hsk
      · exfalso
        have hw' := h w hw hsk
        exact hnot (hid ▸ hw'.2.2)

theorem qa_step_marked (vllm : String → Option Agents.VData) (sk : List String)
    (s : Agents.SystemState) (p : String × String) (h : MarkedInv sk s) :
    MarkedInv sk (Agents.qa_answer_step vllm sk s p) := by
  unfold Agents.qa_answer_step
  split
  · next hcond =>
    split
    · next s' heq =>
      have hm := validate_marked (vllm p.1) s p.1 p.2 sk hcond.1 h
      rw [heq] at hm
      exact hm
    · next s' heq =>
      have hm := validate_marked (vllm p.1) s p.1 p.2 sk hcond.1 h
      rw [heq] at hm
      exact hm
  · exact h

theorem qa_step_count (vllm : String → Option Agents.VData) (sk : List String)
    (s : Agents.SystemState) (p : String × String) :
    (Agents.qa_answer_step vllm sk s p).feedback_count = s.feedback_count := by
  unfold Agents.qa_answer_step
  split
  · split
    · next s' heq =>
      have hc := validate_count (vllm p.1) s p.1 p.2
      rw [heq] at hc
      exact hc
    · next s' heq =>
      have hc := validate_count (vllm p.1) s p.1 p.2
      rw [heq] at hc
      exact hc
  · rfl

theorem qa_foldl_marked (vllm : String → Option Agents.VData) (sk : List String) :
    ∀ (l : List (String × String)) (s : Agents.SystemState), MarkedInv sk s →
      MarkedInv sk (l.foldl (Agents.qa_answer_step vllm sk) s) := by
  intro l
  induction l with
  | nil => intro s h; exact h
  | cons p rest ih =>
    intro s h
    rw [List.foldl_cons]
    exact ih _ (qa_step_marked vllm sk s p h)

theorem qa_foldl_count (vllm : String → Option Agents.VData) (sk : List String) :
    ∀ (l : List (String × String)) (s : Agents.SystemState),
      (l.foldl (Agents.qa_answer_step vllm sk) s).feedback_count = s.feedback_count := by
  intro l
  induction l with
  | nil => intro s; rfl
  | cons p rest ih =>
    intro s
    rw [List.foldl_cons, ih, qa_step_count]

theorem process_qa_count (vllm : String → Option Agents.VData)
    (s : Agents.SystemState) (rs : List (String × String)) (sk : List String) :
    (Agents.process_qa_session vllm s rs sk).feedback_count = s.feedback_count := by
  show (rs.foldl (Agents.qa_answer_step vllm sk)
      { s with questions := s.questions.map (Agents.markSkipped sk) }).feedback_count
    = s.feedback_count
  rw [qa_foldl_count]

theorem process_qa_qinv (vllm : String → Option Agents.VData)
    (s : Agents.SystemState) (rs : List (String × String)) (sk : List String)
    (h : Agents.AllUnskipped s) :
    Agents.QInv (Agents.process_qa_session vllm s rs sk) := by
  have h1 := mark_establishes sk s h
  have h2 := qa_foldl_marked vllm sk rs _ h1
  intro q hq hsk
  have h3 := h2 q hq hsk
  exact ⟨h3.1, h3.2.1⟩

theorem generate_content_count (de : Option Agents.EpicParse)
    (ds : Option Agents.StoryParse) (s : Agents.SystemState) :
    (Agents.estate (Agents.generate_content de ds s)).feedback_count
      = s.feedback_count := by
  cases de <;> cases ds <;>
    by_cases hc : s.generation_type = some Agents.GenerationType.EPICS_ONLY ∨
        s.generation_type = some Agents.GenerationType.BOTH <;>
    by_cases hc2 : s.generation_type = some Agents.GenerationType.STORIES_ONLY ∨
        s.generation_type = some Agents.GenerationType.BOTH <;>
    simp [Agents.generate_content, Agents.generate_epics,
          Agents.generate_user_stories, Agents.estate, hc, hc2]

theorem generate_content_questions (de : Option Agents.EpicParse)
    (ds : Option Agents.StoryParse) (s : Agents.SystemState) :
    (Agents.estate (Agents.generate_content de ds s)).questions = s.questions := by
  cases de <;> cases ds <;>
    by_cases hc : s.generation_type = some Agents.GenerationType.EPICS_ONLY ∨
        s.generation_type = some Agents.GenerationType.BOTH <;>
    by_cases hc2 : s.generation_type = some Agents.GenerationType.STORIES_ONLY ∨
        s.generation_type = some Agents.GenerationType.BOTH <;>
    simp [Agents.generate_content, Agents.generate_epics,
          Agents.generate_user_stories, Agents.estate, hc, hc2]

theorem process_feedback_ok_frame (v : Option Agents.FBData)
    (a : Option Agents.UpdatedData) (s : Agents.SystemState) (fb : String)
    (s' : Agents.SystemState) (b : Bool)
    (h : Agents.process_feedback v a s fb = .ok (s', b)) :
    (s' = s ∨ s'.feedback_count = s.feedback_count + 1) ∧ s'.questions = s.questions := by
  unfold Agents.process_feedback at h
  by_cases hc : 3 ≤ s.feedback_count
  · rw [if_pos hc] at h
    cases h
    exact ⟨Or.inl rfl, rfl⟩
  · rw [if_neg hc] at h
    cases hv : Agents.validate_feedback v with
    | error e =>
      simp only [hv] at h
      cases h
    | ok fr =>
      simp only [hv] at h
      by_cases hfr : fr.is_valid = false
      · rw [if_pos hfr] at h
        cases h
        exact ⟨Or.inl rfl, rfl⟩
      · rw [if_neg hfr] at h
        cases ha : Agents.apply_feedback a s fb with
        | ok s2 =>
          simp only [ha] at h
          injection h with h1
          rw [Prod.mk.injEq] at h1
          obtain ⟨h2, -⟩ := h1
          cases a with
          | none => simp [Agents.apply_feedback] at ha
          | some u =>
            obtain ⟨-, hcnt, hq, -⟩ := apply_feedback_ok_spec u s fb s2 ha
            rw [← h2]
            exact ⟨Or.inr hcnt, hq⟩
        | error s2 =>
          simp only [ha] at h
          cases h

theorem process_feedback_err_frame (v : Option Agents.FBData)
    (a : Option Agents.UpdatedData) (s : Agents.SystemState) (fb : String)
    (s' : Agents.SystemState)
    (h : Agents.process_feedback v a s fb = .error s') :
    s'.feedback_count = s.feedback_count ∧ s'.questions = s.questions := by
  unfold Agents.process_feedback at h
  by_cases hc : 3 ≤ s.feedback_count
  · rw [if_pos hc] at h; cases h
  · rw [if_neg hc] at h
    cases hv : Agents.validate_feedback v with
    | error e =>
      simp only [hv] at h
      cases h
      exact ⟨rfl, rfl⟩
    | ok fr =>
      simp only [hv] at h
      by_cases hfr : fr.is_valid = false
      · rw [if_pos hfr] at h
        cases h
      · rw [if_neg hfr] at h
        cases ha : Agents.apply_feedback a s fb with
        | ok s2 =>
          simp only [ha] at h
          cases h
        | error s2 =>
          simp only [ha] at h
          cases h
          exact apply_feedback_err_spec a s fb s' ha

theorem allUnskipped_qinv (s : Agents.SystemState)
    (h : Agents.AllUnskipped s) : Agents.QInv s := by
  intro q hq hsk
  rw [h q hq] at hsk
  exact absurd hsk (by decide)

/-- The per-stage induction invariant: up to the moment the Q&A pass is
processed the questions are all unskipped; afterwards the skip invariant
holds. -/
def StageInv : Agents.Stage → Agents.SystemState → Prop
  | .started, s => Agents.AllUnskipped s
  | .analyzed, s => Agents.AllUnskipped s
  | .questioned, s => Agents.AllUnskipped s
  | _, s => Agents.QInv s

theorem reach_inv (st : Agents.Stage) (s : Agents.SystemState)
    (h : Agents.Reach st s) : StageInv st s ∧ s.feedback_count ≤ 3 := by
  induction h with
  | create sid hlr g =>
    constructor
    · intro q hq
      simp [Agents.create_session] at hq
    · show (0 : Nat) ≤ 3
      decide
  | analyze_ok hr heq ih =>
    rename_i s0 s1 d0
    have hq : s1.questions = s0.questions := by
      have hx := analyze_questions d0 s0
      rw [heq] at hx
      exact hx
    have hcnt : s1.feedback_count = s0.feedback_count := by
      have hx := analyze_count d0 s0
      rw [heq] at hx
      exact hx
    refine ⟨?_, by rw [hcnt]; exact ih.2⟩
    intro q hqq
    rw [hq] at hqq
    exact ih.1 q hqq
  | analyze_err hr heq ih =>
    rename_i s0 s1 d0
    have hq : s1.questions = s0.questions := by
      have hx := analyze_questions d0 s0
      rw [heq] at hx
      exact hx
    have hcnt : s1.feedback_count = s0.feedback_count := by
      have hx := analyze_count d0 s0
      rw [heq] at hx
      exact hx
    refine ⟨allUnskipped_qinv s1 ?_, by rw [hcnt]; exact ih.2⟩
    intro q hqq
    rw [hq] at hqq
    exact ih.1 q hqq
  | question_ok hr heq ih =>
    rename_i s0 s1 cfg0 d0
    have hcnt : s1.feedback_count = s0.feedback_count := by
      have hx := generate_questions_count cfg0 d0 s0
      rw [heq] at hx
      exact hx
    exact ⟨generate_questions_ok_unskipped cfg0 d0 s0 s1 heq, by rw [hcnt]; exact ih.2⟩
  | question_err hr heq ih =>
    rename_i s0 s1 cfg0 d0
    have hq := generate_questions_err_questions cfg0 d0 s0 s1 heq
    have hcnt : s1.feedback_count = s0.feedback_count := by
      have hx := generate_questions_count cfg0 d0 s0
      rw [heq] at hx
      exact hx
    refine ⟨allUnskipped_qinv s1 ?_, by rw [hcnt]; exact ih.2⟩
    intro q hqq
    rw [hq] at hqq
    exact ih.1 q hqq
  | qa vllm rs sk hr ih =>
    rename_i s0
    refine ⟨process_qa_qinv vllm s0 rs sk ih.1, ?_⟩
    rw [process_qa_count]
    exact ih.2
  | gen_ok hr heq ih =>
    rename_i s0 s1 de ds
    have hq : s1.questions = s0.questions := by
      have hx := generate_content_questions de ds s0
      rw [heq] at hx
      exact hx
    have hcnt : s1.feedback_count = s0.feedback_count := by
      have hx := generate_content_count de ds s0
      rw [heq] at hx
      exact hx
    refine ⟨?_, by rw [hcnt]; exact ih.2⟩
    intro q hqq hsk
    rw [hq] at hqq
    exact ih.1 q hqq hsk
  | gen_err hr heq ih =>
    rename_i s0 s1 de ds
    have hq : s1.questions = s0.questions := by
      have hx := generate_content_questions de ds s0
      rw [heq] at hx
      exact hx
    have hcnt : s1.feedback_count = s0.feedback_count := by
      have hx := generate_content_count de ds s0
      rw [heq] at hx
      exact hx
    refine ⟨?_, by rw [hcnt]; exact ih.2⟩
    intro q hqq hsk
    rw [hq] at hqq
    exact ih.1 q hqq hsk
  | feedback_ok hr heq ih =>
    rename_i s0 s1 v a fb b
    obtain ⟨hcnt, hq⟩ := process_feedback_ok_frame v a s0 fb s1 b heq
    constructor
    · intro q hqq hsk
      rw [hq] at hqq
      exact ih.1 q hqq hsk
    · rcases hcnt with rfl | hcnt
      · exact ih.2
      · have hlt : ¬ 3 ≤ s0.feedback_count ∨ s1 = s0 := by
          by_cases hc : 3 ≤ s0.feedback_count
          · right
            unfold Agents.process_feedback at heq
            rw [if_pos hc] at heq
            cases heq
            rfl
          · left
            exact hc
        rcases hlt with hlt | rfl
        · omega
        · exact ih.2
  | feedback_err hr heq ih =>
    rename_i s0 s1 v a fb
    obtain ⟨hcnt, hq⟩ := process_feedback_err_frame v a s0 fb s1 heq
    constructor
    · intro q hqq hsk
      rw [hq] at hqq
      exact ih.1 q hqq hsk
    · rw [hcnt]
      exact ih.2

theorem reach_qinv (st : Agents.Stage) (s : Agents.SystemState)
    (h : Agents.Reach st s) : Agents.QInv s := by
  have hx := (reach_inv st s h).1
  cases st
  · exact allUnskipped_qinv s hx
  · exact allUnskipped_qinv s hx
  · exact allUnskipped_qinv s hx
  · exact hx
  · exact hx
  · exact hx

/-! ## Main-side Q&A skip invariant -/

theorem process_question_skiprop (inp : Main.QAInput) (q : Main.Question)
    (acc : Main.QALoopState) (hq : q.skipped = false) :
    (Main.process_question inp q acc).1.skipped = true →
    (Main.process_question inp q acc).1.answered = true ∧
    (Main.process_question inp q acc).1.answer = "[SKIPPED]" := by
  by_cases h1 : pyLower (pyStrip inp.resp) = "skip"
  · intro _
    refine ⟨?_, ?_⟩ <;> simp [Main.process_question, h1]
  · by_cases h2 : pyStrip inp.resp = ""
    · intro hsk
      exfalso
      have hb : (Main.process_question inp q acc).1.skipped = q.skipped := by
        simp only [Main.process_question]
        rw [if_neg h1, if_neg (not_not_intro h2)]
      rw [hb, hq] at hsk
      exact absurd hsk (by decide)
    · intro hsk
      exfalso
      have hb : (Main.process_question inp q acc).1.skipped = q.skipped := by
        simp only [Main.process_question]
        rw [if_neg h1, if_pos h2]
        repeat' split
        all_goals rfl
      rw [hb, hq] at hsk
      exact absurd hsk (by decide)

theorem process_questions_skiprop (inputs : Nat → Main.QAInput) :
    ∀ (i : Nat) (qs : List Main.Question) (acc : Main.QALoopState),
      (∀ q ∈ qs, q.skipped = false) →
      ∀ q' ∈ (Main.process_questions inputs i qs acc).1, q'.skipped = true →
        q'.answered = true ∧ q'.answer = "[SKIPPED]" := by
  intro i qs
  induction qs generalizing i with
  | nil =>
    intro acc h q' hq'
    simp [Main.process_questions] at hq'
  | cons q rest ih =>
    intro acc h q' hq'
    simp only [Main.process_questions] at hq'
    rcases List.mem_cons.mp hq' with h1 | h1
    · intro hsk
      rw [h1]
      rw [h1] at hsk
      exact process_question_skiprop (inputs i) q acc (h q (List.mem_cons_self q rest)) hsk
    · exact ih (i + 1) _ (fun w hw => h w (List.mem_cons_of_mem q hw)) q' h1

theorem main_qa_skiprop (inputs : Nat → Main.QAInput) (st : Main.WorkflowState)
    (h : ∀ q ∈ st.questions, q.skipped = false) :
    ∀ q ∈ (Main.requirement_analysis_qa inputs st).questions, q.skipped = true →
      q.answered = true ∧ q.answer = "[SKIPPED]" := by
  intro q hq
  exact process_questions_skiprop inputs 0 st.questions
    { phase := st.phase, qa_responses := [], validation_results := st.validation_results }
    h q hq

theorem feedback_step_false_eq (inp : Main.FBInput) (s s' : Main.WorkflowState)
    (h : Main.feedback_step inp s = (s', false)) : s' = s := by
  simp only [Main.feedback_step] at h
  repeat' split at h
  all_goals (
    rw [Prod.mk.injEq] at h
    obtain ⟨h1, h2⟩ := h
    first
      | exact h1.symm
      | exact absurd h2 (by decide))

/-! ## C1 -/

/-- C1: in the agents.py engine, `feedback_count` never exceeds 3 in any
session state reachable through the engine's operations, and a
`process_feedback` call on a state at the cap returns the state unchanged
with a `false` applied-flag; in main.py's feedback loop the counter also
never exceeds 3. -/
theorem C1_feedback_cap :
    (∀ (st : Agents.Stage) (s : Agents.SystemState),
        Agents.Reach st s → s.feedback_count ≤ 3) ∧
    (∀ (v : Option Agents.FBData) (a : Option Agents.UpdatedData)
        (s : Agents.SystemState) (fb : String), 3 ≤ s.feedback_count →
        Agents.process_feedback v a s fb = .ok (s, false)) ∧
    (∀ (ins : List Main.FBInput) (s : Main.WorkflowState),
        s.feedback_count ≤ 3 → (Main.feedback_loop ins s).feedback_count ≤ 3) := by
  refine ⟨fun st s h => (reach_inv st s h).2, ?_, ?_⟩
  · intro v a s fb h
    unfold Agents.process_feedback
    rw [if_pos h]
  · intro ins
    induction ins with
    | nil => intro s h; exact h
    | cons inp rest ih =>
      intro s h
      unfold Main.feedback_loop
      by_cases hc : s.feedback_count < 3
      · rw [if_pos hc]
        rcases hstep : Main.feedback_step inp s with ⟨s', b⟩
        cases b
        · have he : s' = s := feedback_step_false_eq inp s s' hstep
          show s'.feedback_count ≤ 3
          rw [he]
          exact h
        · have hcnt := (feedback_step_true_spec inp s s' hstep).2.1
          show (Main.feedback_loop rest s').feedback_count ≤ 3
          exact ih s' (by omega)
      · rw [if_neg hc]
        exact h

/-- Witness for C1: the fresh session satisfies the cap; a capped state is
returned unchanged; the main.py loop keeps the cap. -/
theorem C1_feedback_cap_witness :
    (Agents.create_session "sess" "demo hlr" Agents.GenerationType.BOTH).feedback_count ≤ 3 ∧
    Agents.process_feedback none none c1_capped_state "more detail"
      = .ok (c1_capped_state, false) ∧
    (Main.feedback_loop [] Main.initial_state).feedback_count ≤ 3 :=
  ⟨C1_feedback_cap.1 _ _ (Agents.Reach.create "sess" "demo hlr" Agents.GenerationType.BOTH),
   C1_feedback_cap.2.1 none none c1_capped_state "more detail" (by decide),
   C1_feedback_cap.2.2 [] Main.initial_state (by decide)⟩

/-! ## C6 -/

/-- C6: in every agents.py session state reachable through the engine's
operations (as driven by the interactive and Streamlit drivers), and after
main.py's Q&A pass over freshly generated questions, `skipped = true`
implies `answered = true` with the answer fixed to the sentinel
`[SKIPPED]`. -/
theorem C6_skip_sentinel :
    (∀ (st : Agents.Stage) (s : Agents.SystemState),
        Agents.Reach st s → Agents.QInv s) ∧
    (∀ (inputs : Nat → Main.QAInput) (st : Main.WorkflowState),
        (∀ q ∈ st.questions, q.skipped = false) →
        ∀ q ∈ (Main.requirement_analysis_qa inputs st).questions, q.skipped = true →
          q.answered = true ∧ q.answer = "[SKIPPED]") :=
  ⟨reach_qinv, main_qa_skiprop⟩

/-- Witness for C6: a freshly created agents.py session and a concrete
main.py Q&A pass that skips its single question. -/
theorem C6_skip_sentinel_witness :
    Agents.QInv (Agents.create_session "sess" "demo hlr" Agents.GenerationType.BOTH) ∧
    (∀ q ∈ (Main.requirement_analysis_qa c6_inputs c6_state).questions, q.skipped = true →
        q.answered = true ∧ q.answer = "[SKIPPED]") :=
  ⟨C6_skip_sentinel.1 _ _ (Agents.Reach.create "sess" "demo hlr" Agents.GenerationType.BOTH),
   C6_skip_sentinel.2 c6_inputs c6_state (by
      intro q hq
      simp [c6_state] at hq
      rw [hq]
      rfl)⟩

end Orion
